import Mathlib

set_option autoImplicit false

/-!
TeamWidget (src/ra/widgets/teamwidget.cpp)

A shallow embedding of the strategy panel controller `TeamWidget` and of its two
entry-point naming helpers, followed by theorems about them.

Conventions of the embedding

* A `QString` is `Option String`: `none` is the null string `QString()`, `some s` a
  non-null string with content `s` (possibly empty).  `std::string` is `String`.
* Qt widgets are records of the properties the controller reads or writes; a property
  setter stores its argument.  A checkable widget emits `toggled` from `setChecked`
  exactly when the checked state changes, and a connected slot runs synchronously.
* `emit sendCommand(command)` appends the command to the log `World.sent`.
* The settings store (`QSettings`) is a map from hierarchical keys to `QVariant`s that
  returns what was stored.
-/

/-! ## Strings -/

/-- A Qt string, `none` being the null string. -/
abbrev QString := Option String

/-- The call `QString::isNull()`. -/
def QString.isNull (s : QString) : Bool := s.isNone

/-- The call `QString::toStdString()`: the content, empty for the null string. -/
def QString.toStdString (s : QString) : String := s.getD ""

/-- The call `QString::fromStdString`. -/
def QString.fromStdString (s : String) : QString := some s

/-- Qt string equality `operator==`: compares contents, so the null string equals the empty one. -/
def QString.eq (a b : QString) : Bool := a.toStdString == b.toStdString

/-! ## Message schema (protobuf/command.pb.h, protobuf/status.pb.h) -/

/-- The enum `amun::StatusStrategyWrapper::StrategyType`, the role of a controller. -/
inductive StrategyType where
  | BLUE | YELLOW | AUTOREF | REPLAY_BLUE | REPLAY_YELLOW
  deriving DecidableEq

/-- The enum `SSL_Referee::Stage`. -/
inductive Stage where
  | NORMAL_FIRST_HALF_PRE | NORMAL_FIRST_HALF | NORMAL_HALF_TIME
  | NORMAL_SECOND_HALF_PRE | NORMAL_SECOND_HALF | EXTRA_TIME_BREAK
  | EXTRA_FIRST_HALF_PRE | EXTRA_FIRST_HALF | EXTRA_HALF_TIME
  | EXTRA_SECOND_HALF_PRE | EXTRA_SECOND_HALF | PENALTY_SHOOTOUT_BREAK
  | PENALTY_SHOOTOUT | POST_GAME
  deriving DecidableEq

/-- Modelled from the spec: the message `amun::CommandStrategyLoad` of the missing
protobuf schema, "load(filename, entryPoint)"; an absent optional field is `none`. -/
structure CommandStrategyLoad where
  filename : Option String := none
  entry_point : Option String := none
  deriving DecidableEq

/-- Modelled from the spec: one "(stage → entry point)" mapping of the missing protobuf
schema, as filled in by `add_mapping`. -/
structure Mapping where
  stage : Stage
  entry_point : String
  deriving DecidableEq

/-- Modelled from the spec: the message `amun::CommandStrategy` of the missing protobuf
schema, with the variants "load, close, reload, auto_reload(bool), enable_debug(bool),
debug(trigger), performance_mode(bool), automatic_entrypoints(list of mappings)".
An absent optional field is `none`; the field-less sub-messages `close` and `debug` are
present or absent. -/
structure CommandStrategy where
  load : Option CommandStrategyLoad := none
  close : Bool := false
  reload : Option Bool := none
  auto_reload : Option Bool := none
  enable_debug : Option Bool := none
  debug : Bool := false
  performance_mode : Option Bool := none
  automatic_entrypoints : Option (List Mapping) := none
  deriving DecidableEq

/-- Modelled from the spec: the replay sub-message of the missing protobuf schema, holding
`replay.blue_strategy` and `replay.yellow_strategy`. -/
structure CommandReplay where
  blue_strategy : Option CommandStrategy := none
  yellow_strategy : Option CommandStrategy := none
  deriving DecidableEq

/-- Modelled from the spec: the part of the message `amun::Command` of the missing protobuf
schema that the controller can populate. -/
structure Command where
  strategy_blue : Option CommandStrategy := none
  strategy_yellow : Option CommandStrategy := none
  strategy_autoref : Option CommandStrategy := none
  replay : Option CommandReplay := none
  deriving DecidableEq

/-- The five role-specific strategy sub-messages of a command. -/
inductive SubMessage where
  | strategy_blue | strategy_yellow | strategy_autoref | replay_blue_strategy | replay_yellow_strategy
  deriving DecidableEq

/-- The strategy sub-message stored at a given place of a command, if populated. -/
def Command.strategyAt (c : Command) : SubMessage → Option CommandStrategy
  | .strategy_blue => c.strategy_blue
  | .strategy_yellow => c.strategy_yellow
  | .strategy_autoref => c.strategy_autoref
  | .replay_blue_strategy => c.replay.bind (fun r => r.blue_strategy)
  | .replay_yellow_strategy => c.replay.bind (fun r => r.yellow_strategy)

/-- The number of fields of a strategy sub-message that are set. -/
def CommandStrategy.numFieldsSet (s : CommandStrategy) : Nat :=
  (if s.load.isSome then 1 else 0) + (if s.close then 1 else 0)
    + (if s.reload.isSome then 1 else 0) + (if s.auto_reload.isSome then 1 else 0)
    + (if s.enable_debug.isSome then 1 else 0) + (if s.debug then 1 else 0)
    + (if s.performance_mode.isSome then 1 else 0)
    + (if s.automatic_entrypoints.isSome then 1 else 0)

/-- The enum `amun::StatusStrategy::STATE`. -/
inductive StrategyState where
  | CLOSED | RUNNING | FAILED | COMPILING
  deriving DecidableEq

/-- Modelled from the spec: the message `amun::StatusStrategy` of the missing protobuf
schema, "name, state, list of entry points, current entry point, debugger availability". -/
structure StatusStrategy where
  state : StrategyState
  name : String := ""
  entry_point : List String := []
  current_entry_point : Option String := none
  has_debugger : Bool := false
  deriving DecidableEq

/-- Modelled from the spec: the message `amun::StatusStrategyWrapper` of the missing
protobuf schema, a strategy status block tagged with the role it is for. -/
structure StatusStrategyWrapper where
  type : StrategyType
  status : StatusStrategy
  deriving DecidableEq

/-- Modelled from the spec: the part of the inbound message `amun::Status` that the
controller reads, an optional strategy status block. -/
structure Status where
  status_strategy : Option StatusStrategyWrapper := none
  deriving DecidableEq

/-! ## Settings store -/

/-- The values a `QVariant` takes in the settings of the controller. -/
inductive QVariant where
  | invalid
  | string (s : QString)
  | bool (b : Bool)
  deriving DecidableEq

/-- The call `QVariant::toString()`. -/
def QVariant.toString : QVariant → QString
  | .invalid => none
  | .string s => s
  | .bool b => some (if b then "true" else "false")

/-- The call `QVariant::toBool()`: a string converts to false exactly when its lower-case
content is empty, "0" or "false". -/
def QVariant.toBool : QVariant → Bool
  | .invalid => false
  | .string s =>
      let l := String.mk (s.toStdString.data.map Char.toLower)
      !(l == "" || l == "0" || l == "false")
  | .bool b => b

/-- The persistent key-value store behind every `QSettings` object; a key is the list of
its group names followed by its own name. -/
abbrev SettingsStore := List String → Option QVariant

/-- A `QSettings` object: the current group and the store it reads and writes. -/
structure QSettings where
  group : List String
  store : SettingsStore

/-- The call `QSettings::beginGroup`. -/
def QSettings.beginGroup (s : QSettings) (g : String) : QSettings :=
  { s with group := s.group ++ [g] }

/-- The call `QSettings::endGroup`. -/
def QSettings.endGroup (s : QSettings) : QSettings :=
  { s with group := s.group.dropLast }

/-- The call `QSettings::setValue`. -/
def QSettings.setValue (s : QSettings) (key : String) (v : QVariant) : QSettings :=
  { s with store := fun k => if k = s.group ++ [key] then some v else s.store k }

/-- The call `QSettings::remove`: removes the key and every setting below it. -/
def QSettings.remove (s : QSettings) (key : String) : QSettings :=
  { s with store := fun k => if (s.group ++ [key]).isPrefixOf k then none else s.store k }

/-- The call `QSettings::value(key, defaultValue)`; the default of `defaultValue` in Qt is
the invalid variant. -/
def QSettings.value (s : QSettings) (key : String) (defaultValue : QVariant) : QVariant :=
  (s.store (s.group ++ [key])).getD defaultValue

/-! ## Widgets -/

/-- The properties of a `QAction` that the controller uses. -/
structure QAction where
  enabled : Bool := true
  visible : Bool := true
  checked : Bool := false
  deriving DecidableEq

/-- The properties of a `QToolButton` that the controller uses. -/
structure QToolButton where
  text : String := ""
  enabled : Bool := true
  checked : Bool := false
  signalsBlocked : Bool := false
  deriving DecidableEq

/-- The properties of the `EntrypointSelectionToolButton` (entrypointselectiontoolbutton.h)
that the controller sets; each setter stores its argument. -/
structure EntrypointSelectionToolButton where
  enabled : Bool := true
  entrypointList : List QString := []
  currentEntrypoint : QString := none
  deriving DecidableEq

/-- The colour constants of config/config.h, kept symbolic. -/
inductive UiColor where
  | UI_BLUE_COLOR_DARK | UI_BLUE_COLOR_LIGHT
  | UI_YELLOW_COLOR_DARK | UI_YELLOW_COLOR_LIGHT
  | UI_AUTOREF_COLOR_DARK | UI_AUTOREF_COLOR_LIGHT
  deriving DecidableEq

/-- The background colour chosen by `updateStyleSheet`. -/
inductive BgColor where
  | red
  | gray
  | lighter170 (c : UiColor)
  deriving DecidableEq

/-- The two colours substituted into the style sheet by `updateStyleSheet`. -/
structure StyleSheet where
  border : UiColor
  background : BgColor
  deriving DecidableEq

/-- Modelled from the spec: the struct `AutomaticEntrypointsStorage`, declared in the
missing header automaticentrypointdialog.h; "three optional strings forGame, forBreak,
forPostgame, each either unset or naming an entry point", an unset one being null. -/
structure AutomaticEntrypointsStorage where
  forGame : QString := none
  forBreak : QString := none
  forPostgame : QString := none
  deriving DecidableEq

/-- Modelled from the spec: `AutomaticEntrypointsStorage::allNull`, declared in the missing
header automaticentrypointdialog.h; "allNull iff all three unset". -/
def AutomaticEntrypointsStorage.allNull (a : AutomaticEntrypointsStorage) : Bool :=
  a.forGame.isNull && a.forBreak.isNull && a.forPostgame.isNull

/-! ## Controller state -/

/-- The members of a `TeamWidget`.  `m_recentScripts` records whether the shared pointer
is non-null; the list it points to is `World.recentScripts`. -/
structure TeamWidget where
  m_type : StrategyType := .BLUE
  m_isTournamentMode : Bool
  m_userAutoReload : Bool := false
  m_notification : Bool := false
  m_compiling : Bool := false
  m_contentEnabled : Bool
  m_useDarkColors : Bool
  m_filename : QString := none
  m_entryPoint : QString := none
  m_automaticEntrypoints : AutomaticEntrypointsStorage := {}
  m_lastSentEntrypoints : List QString := []
  m_recentScripts : Bool := false
  m_btnOpen : QToolButton := {}
  m_actionDisable : QAction := {}
  m_btnEntryPoint : EntrypointSelectionToolButton := {}
  m_btnEnableDebug : QToolButton := {}
  m_reloadAction : QAction := {}
  m_debugAction : QAction := {}
  m_performanceAction : QAction := {}
  m_btnReload : QToolButton := {}
  styleSheet : Option StyleSheet := none
  deriving DecidableEq

/-- A controller together with what it shares with its surroundings: the recent-scripts
list behind `m_recentScripts`, the settings store, and the commands emitted so far through
the signal `sendCommand`, oldest first. -/
structure World where
  widget : TeamWidget
  recentScripts : List QString
  settings : SettingsStore
  sent : List Command

/-- What lies outside the source file: whether the build defines `EASY_MODE`
(config/config.h), the answer of `QFileInfo::exists`, and the comparison `operator==` of
`AutomaticEntrypointsStorage` (automaticentrypointdialog.h). -/
structure Env where
  EASY_MODE : Bool
  fileExists : QString → Bool
  entrypointsEqual : AutomaticEntrypointsStorage → AutomaticEntrypointsStorage → Bool

/-- The statement `emit sendCommand(command)`. -/
def World.emit (s : World) (c : Command) : World :=
  { s with sent := s.sent ++ [c] }

namespace TeamWidget

/-- The method `TeamWidget::teamTypeName`. -/
def teamTypeName (m_type : StrategyType) : String :=
  match m_type with
  | .BLUE => "BlueTeam"
  | .YELLOW => "YellowTeam"
  | .AUTOREF => "Autoref"
  | .REPLAY_BLUE => "ReplayBlue"
  | .REPLAY_YELLOW => "ReplayYellow"

/-- The method `TeamWidget::commandStrategyFromType`: the mutable strategy sub-message of
`command` for the role, created when absent; `f` is what the caller then does to it. -/
def commandStrategyFromType (m_type : StrategyType) (command : Command)
    (f : CommandStrategy → CommandStrategy) : Command :=
  match m_type with
  | .BLUE => { command with strategy_blue := some (f (command.strategy_blue.getD {})) }
  | .YELLOW => { command with strategy_yellow := some (f (command.strategy_yellow.getD {})) }
  | .AUTOREF => { command with strategy_autoref := some (f (command.strategy_autoref.getD {})) }
  | .REPLAY_BLUE =>
      let r := command.replay.getD {}
      { command with replay := some { r with blue_strategy := some (f (r.blue_strategy.getD {})) } }
  | .REPLAY_YELLOW =>
      let r := command.replay.getD {}
      { command with replay := some { r with yellow_strategy := some (f (r.yellow_strategy.getD {})) } }

/-- The sub-message that `commandStrategyFromType` populates for a role. -/
def subMessageOf : StrategyType → SubMessage
  | .BLUE => .strategy_blue
  | .YELLOW => .strategy_yellow
  | .AUTOREF => .strategy_autoref
  | .REPLAY_BLUE => .replay_blue_strategy
  | .REPLAY_YELLOW => .replay_yellow_strategy

/-- The method `TeamWidget::updateStyleSheet`. -/
def updateStyleSheet (s : World) : World :=
  let w := s.widget
  let color : UiColor :=
    match w.m_type with
    | .BLUE | .REPLAY_BLUE =>
        if w.m_useDarkColors then .UI_BLUE_COLOR_DARK else .UI_BLUE_COLOR_LIGHT
    | .YELLOW | .REPLAY_YELLOW =>
        if w.m_useDarkColors then .UI_YELLOW_COLOR_DARK else .UI_YELLOW_COLOR_LIGHT
    | .AUTOREF =>
        if w.m_useDarkColors then .UI_AUTOREF_COLOR_DARK else .UI_AUTOREF_COLOR_LIGHT
  let bgColor : BgColor :=
    if w.m_notification then .red else (if w.m_compiling then .gray else .lighter170 color)
  { s with widget := { w with styleSheet := some { border := color, background := bgColor } } }

/-- The method `TeamWidget::open(const QString &)`. -/
def openFilename (filename : QString) (s : World) : World :=
  let s := { s with widget := { s.widget with m_filename := filename } }
  let s :=
    if s.widget.m_recentScripts then
      -- removeAll, prepend, then takeLast while more than five remain
      { s with recentScripts := (filename :: s.recentScripts.filter (fun x => !QString.eq x filename)).take 5 }
    else s
  s.emit (commandStrategyFromType s.widget.m_type {} (fun strategy =>
    let load := strategy.load.getD {}
    { strategy with load := some { load with filename := some filename.toStdString } }))

/-- The method `TeamWidget::closeScript`. -/
def closeScript (s : World) : World :=
  s.emit (commandStrategyFromType s.widget.m_type {} (fun strategy => { strategy with close := true }))

/-- The method `TeamWidget::sendFilenameAndEntrypoint`. -/
def sendFilenameAndEntrypoint (entry_point : QString) (s : World) : World :=
  let s := { s with widget := { s.widget with m_entryPoint := entry_point } }
  s.emit (commandStrategyFromType s.widget.m_type {} (fun strategy =>
    let load := strategy.load.getD {}
    { strategy with load := some { load with
        filename := some s.widget.m_filename.toStdString
        entry_point := some entry_point.toStdString } }))

/-- The method `TeamWidget::sendReload`. -/
def sendReload (s : World) : World :=
  s.emit (commandStrategyFromType s.widget.m_type {} (fun strategy => { strategy with reload := some true }))

/-- The method `TeamWidget::sendAutoReload`. -/
def sendAutoReload (s : World) : World :=
  let s :=
    if s.widget.m_reloadAction.enabled then
      { s with widget := { s.widget with m_userAutoReload := s.widget.m_reloadAction.checked } }
    else s
  s.emit (commandStrategyFromType s.widget.m_type {} (fun strategy =>
    { strategy with auto_reload := some s.widget.m_reloadAction.checked }))

/-- The method `TeamWidget::sendEnableDebug`. -/
def sendEnableDebug (enable : Bool) (s : World) : World :=
  s.emit (commandStrategyFromType s.widget.m_type {} (fun strategy => { strategy with enable_debug := some enable }))

/-- The method `TeamWidget::sendTriggerDebug`. -/
def sendTriggerDebug (s : World) : World :=
  s.emit (commandStrategyFromType s.widget.m_type {} (fun strategy => { strategy with debug := true }))

/-- The method `TeamWidget::sendPerformanceDebug`. -/
def sendPerformanceDebug (enable : Bool) (s : World) : World :=
  s.emit (commandStrategyFromType s.widget.m_type {} (fun strategy => { strategy with performance_mode := some enable }))

/-- The seven stages that `sendAutomaticEntrypoints` maps to `forGame`. -/
def gameStages : List Stage :=
  [.NORMAL_SECOND_HALF_PRE, .NORMAL_SECOND_HALF, .EXTRA_FIRST_HALF_PRE, .EXTRA_FIRST_HALF,
   .EXTRA_SECOND_HALF_PRE, .EXTRA_SECOND_HALF, .PENALTY_SHOOTOUT]

/-- The four stages that `sendAutomaticEntrypoints` maps to `forBreak`. -/
def breakStages : List Stage :=
  [.NORMAL_HALF_TIME, .EXTRA_TIME_BREAK, .EXTRA_HALF_TIME, .PENALTY_SHOOTOUT_BREAK]

/-- The lambda `add_mapping` of `sendAutomaticEntrypoints`, on the mapping list. -/
def add_mapping (mappings : List Mapping) (stage : Stage) (entrypoint : QString) : List Mapping :=
  mappings ++ [{ stage := stage, entry_point := entrypoint.toStdString }]

/-- The mappings that `sendAutomaticEntrypoints` adds to the fresh sub-message, in order. -/
def automaticEntrypointMappings (a : AutomaticEntrypointsStorage) : List Mapping :=
  let m : List Mapping := []
  let m := if !a.forGame.isNull then gameStages.foldl (fun m stage => add_mapping m stage a.forGame) m else m
  let m := if !a.forBreak.isNull then breakStages.foldl (fun m stage => add_mapping m stage a.forBreak) m else m
  let m := if !a.forPostgame.isNull then add_mapping m .POST_GAME a.forPostgame else m
  m

/-- The method `TeamWidget::sendAutomaticEntrypoints`. -/
def sendAutomaticEntrypoints (s : World) : World :=
  if s.widget.m_automaticEntrypoints.allNull then s
  else
    s.emit (commandStrategyFromType s.widget.m_type {} (fun strategy =>
      let mappings := strategy.automatic_entrypoints.getD []
      let mappings := mappings ++ automaticEntrypointMappings s.widget.m_automaticEntrypoints
      { strategy with automatic_entrypoints := some mappings }))

/-- The connection of `m_reloadAction`: `setChecked` emits `toggled` when the state
changes, which runs the slot `sendAutoReload`. -/
def reloadAction_setChecked (b : Bool) (s : World) : World :=
  if s.widget.m_reloadAction.checked = b then s
  else
    sendAutoReload { s with widget := { s.widget with
      m_reloadAction := { s.widget.m_reloadAction with checked := b } } }

/-- The connection of `m_btnEnableDebug`: `setChecked` emits `toggled(bool)` when the state
changes, which runs the slot `sendEnableDebug(bool)`. -/
def btnEnableDebug_setChecked (b : Bool) (s : World) : World :=
  if s.widget.m_btnEnableDebug.checked = b then s
  else
    sendEnableDebug b { s with widget := { s.widget with
      m_btnEnableDebug := { s.widget.m_btnEnableDebug with checked := b } } }

/-- The connection of `m_performanceAction`: `setChecked` emits `toggled(bool)` when the
state changes, which runs the slot `sendPerformanceDebug(bool)`. -/
def performanceAction_setChecked (b : Bool) (s : World) : World :=
  if s.widget.m_performanceAction.checked = b then s
  else
    sendPerformanceDebug b { s with widget := { s.widget with
      m_performanceAction := { s.widget.m_performanceAction with checked := b } } }

/-- The constructor `TeamWidget::TeamWidget`.  The initial values of `m_contentEnabled` and
`m_useDarkColors` come from the class declaration (teamwidget.h) and are parameters;
`m_isTournamentMode` is assigned by `init` before any use. -/
def construct (contentEnabled useDarkColors : Bool) : TeamWidget :=
  { m_type := .BLUE, m_userAutoReload := false, m_notification := false, m_compiling := false,
    m_isTournamentMode := false, m_contentEnabled := contentEnabled,
    m_useDarkColors := useDarkColors }

/-- The method `TeamWidget::init`.  Widgets are created with their Qt defaults (enabled,
visible, unchecked); a `setChecked` that precedes the `connect` of its signal emits
nothing. -/
def init (type : StrategyType) (tournamentMode : Bool) (s : World) : World :=
  let s := { s with widget := { s.widget with m_type := type, m_isTournamentMode := tournamentMode } }
  let s := { s with widget := { s.widget with
    m_actionDisable := { visible := false }
    m_btnOpen := { text := "Disabled" }
    m_btnEntryPoint := {}
    m_btnEnableDebug :=
      if type = StrategyType.AUTOREF then { checked := true, enabled := false } else {}
    m_reloadAction := {} } }
  let s :=
    if s.widget.m_isTournamentMode then
      reloadAction_setChecked true { s with widget := { s.widget with
        m_reloadAction := { s.widget.m_reloadAction with enabled := false } } }
    else s
  let s := { s with widget := { s.widget with
    m_debugAction := { enabled := false }
    m_performanceAction := { checked := true }
    m_btnReload := {} } }
  updateStyleSheet s

/-- The method `TeamWidget::enableContent`. -/
def enableContent (enable : Bool) (s : World) : World :=
  let w := s.widget
  let w := { w with m_btnOpen := { w.m_btnOpen with enabled := enable } }
  let w := { w with m_btnEntryPoint := { w.m_btnEntryPoint with enabled := enable } }
  let w := { w with m_btnReload := { w.m_btnReload with signalsBlocked := !enable } }
  let w := { w with m_btnEnableDebug :=
    { w.m_btnEnableDebug with enabled := enable && decide (w.m_type ≠ StrategyType.AUTOREF) } }
  let w := { w with m_debugAction := { w.m_debugAction with enabled := enable } }
  let w := { w with m_performanceAction := { w.m_performanceAction with enabled := enable } }
  let w := { w with m_contentEnabled := enable }
  let w :=
    if !w.m_isTournamentMode then
      { w with m_reloadAction := { w.m_reloadAction with enabled := enable } }
    else w
  { s with widget := w }

/-- The method `TeamWidget::saveConfig`. -/
def saveConfig (s : World) : World :=
  let w := s.widget
  let q : QSettings := { group := [], store := s.settings }
  let q := q.beginGroup (teamTypeName w.m_type)
  let q := q.setValue "Script" (.string w.m_filename)
  let q := q.setValue "EntryPoint" (.string w.m_entryPoint)
  let q := q.setValue "AutoReload" (.bool w.m_userAutoReload)
  let q := q.setValue "EnableDebug" (.bool w.m_btnEnableDebug.checked)
  let q := q.setValue "PerformanceMode" (.bool w.m_performanceAction.checked)
  let saveAutomaticEntrypoint := fun (q : QSettings) (name : String) (entrypoint : QString) =>
    if entrypoint.isNull then q.remove name else q.setValue name (.string entrypoint)
  let q := q.beginGroup "AutomaticEntrypoints"
  let q := saveAutomaticEntrypoint q "game" w.m_automaticEntrypoints.forGame
  let q := saveAutomaticEntrypoint q "break" w.m_automaticEntrypoints.forBreak
  let q := saveAutomaticEntrypoint q "postgame" w.m_automaticEntrypoints.forPostgame
  let q := q.endGroup
  let q := q.endGroup
  { s with settings := q.store }

/-- Whether the regular expression ".*.ts" of the `EASY_MODE` branch of `load` matches
somewhere in the string: "ts" preceded by a character other than a newline. -/
def tsInitRegexMatch : List Char → Bool
  | c :: t :: u :: rest =>
      (c != Char.ofNat 10 && t == 't' && u == 's')
        || tsInitRegexMatch (t :: u :: rest)
  | _ => false

/-- The method `TeamWidget::load`. -/
def load (env : Env) (s : World) : World :=
  let q : QSettings := { group := [], store := s.settings }
  let q := q.beginGroup (teamTypeName s.widget.m_type)
  let previousFilename := (q.value "Script" .invalid).toString
  let s :=
    if !QString.eq previousFilename (some "") then
      { s with widget := { s.widget with m_filename := previousFilename } }
    else if s.widget.m_recentScripts then
      if env.EASY_MODE then
        match s.recentScripts.filter (fun x => tsInitRegexMatch x.toStdString.data) with
        | first :: _ => { s with widget := { s.widget with m_filename := first } }
        | [] => s
      else s
    else s
  let s := { s with widget := { s.widget with m_entryPoint := (q.value "EntryPoint" .invalid).toString } }
  let s :=
    if !s.widget.m_isTournamentMode then
      reloadAction_setChecked (q.value "AutoReload" .invalid).toBool s
    else s
  let s := performanceAction_setChecked (q.value "PerformanceMode" (.bool true)).toBool s
  let s :=
    if s.widget.m_type ≠ StrategyType.AUTOREF then
      btnEnableDebug_setChecked (q.value "EnableDebug" (.bool false)).toBool s
    else s
  let q := q.beginGroup "AutomaticEntrypoints"
  let s := { s with widget := { s.widget with m_automaticEntrypoints :=
    { forGame := (q.value "game" .invalid).toString
      forBreak := (q.value "break" .invalid).toString
      forPostgame := (q.value "postgame" .invalid).toString } } }
  if env.fileExists s.widget.m_filename then
    sendAutomaticEntrypoints (sendFilenameAndEntrypoint s.widget.m_entryPoint s)
  else s

/-- The method `TeamWidget::setRecentScripts`: `none` is a null pointer, `some l` a pointer to
a shared list whose content is `l`. -/
def setRecentScripts (recent : Option (List QString)) (s : World) : World :=
  match recent with
  | none => { s with widget := { s.widget with m_recentScripts := false } }
  | some l => { s with widget := { s.widget with m_recentScripts := true }, recentScripts := l }

/-- The method `TeamWidget::forceAutoReload`. -/
def forceAutoReload (force : Bool) (s : World) : World :=
  if !s.widget.m_isTournamentMode && s.widget.m_reloadAction.enabled then
    let s := { s with widget := { s.widget with
      m_reloadAction := { s.widget.m_reloadAction with enabled := !force } } }
    if force then reloadAction_setChecked true s
    else reloadAction_setChecked s.widget.m_userAutoReload s
  else sendAutoReload s

/-- The method `TeamWidget::handleStatus`. -/
def handleStatus (status : Status) (s : World) : World :=
  if !s.widget.m_contentEnabled then s
  else
    let strategy : Option StatusStrategy :=
      match status.status_strategy with
      | some statusStrategy =>
          if statusStrategy.type = s.widget.m_type then some statusStrategy.status else none
      | none => none
    match strategy with
    | none => s
    | some strategy =>
        let w := s.widget
        let w := { w with m_lastSentEntrypoints := strategy.entry_point.map QString.fromStdString }
        let w := { w with m_btnEntryPoint := { w.m_btnEntryPoint with
          entrypointList := w.m_lastSentEntrypoints
          currentEntrypoint := strategy.current_entry_point } }
        let w := { w with m_btnOpen := { w.m_btnOpen with text := strategy.name } }
        let w := { w with m_actionDisable :=
          { w.m_actionDisable with visible := decide (strategy.state ≠ StrategyState.CLOSED) } }
        let w := { w with m_compiling := false }
        let w :=
          match strategy.state with
          | .CLOSED =>
              { w with m_btnOpen := { w.m_btnOpen with text := "Disabled" }
                       m_notification := false, m_filename := none, m_entryPoint := none }
          | .RUNNING => { w with m_notification := false }
          | .FAILED => { w with m_notification := true }
          | .COMPILING => { w with m_compiling := true }
        let w := { w with m_debugAction := { w.m_debugAction with enabled := strategy.has_debugger } }
        updateStyleSheet { s with widget := w }

/-- The method `TeamWidget::enableDebugger`. -/
def enableDebugger (enable : Bool) (s : World) : World :=
  { s with widget := { s.widget with m_debugAction := { s.widget.m_debugAction with visible := enable } } }

/-- The method `TeamWidget::showOpenDialog`; `filename` is what the file dialog returns,
null when it is cancelled. -/
def showOpenDialog (filename : QString) (s : World) : World :=
  if filename.isNull then s else openFilename filename s

/-- The slot `TeamWidget::open()`; `filename` is the "filename" property of the sender. -/
def openSender (filename : QString) (s : World) : World :=
  if filename.isNull then s else openFilename filename s

/-- The method `TeamWidget::showAutomaticEntrypointDialog`; `accepted` and `newlySelected`
are what the dialog returns. -/
def showAutomaticEntrypointDialog (env : Env) (accepted : Bool)
    (newlySelected : AutomaticEntrypointsStorage) (s : World) : World :=
  if !accepted then s
  else if env.entrypointsEqual newlySelected s.widget.m_automaticEntrypoints then s
  else sendAutomaticEntrypoints { s with widget := { s.widget with m_automaticEntrypoints := newlySelected } }

/-- The method `TeamWidget::shutdown`. -/
def shutdown (s : World) : World :=
  closeScript (saveConfig s)

/-- The user toggles the "Reload automatically" menu entry, possible only while the action
is enabled. -/
def userToggleReloadAction (s : World) : World :=
  if s.widget.m_reloadAction.enabled then
    reloadAction_setChecked (!s.widget.m_reloadAction.checked) s
  else s

/-- The user toggles the debug button, possible only while the button is enabled. -/
def userToggleEnableDebug (s : World) : World :=
  if s.widget.m_btnEnableDebug.enabled then
    btnEnableDebug_setChecked (!s.widget.m_btnEnableDebug.checked) s
  else s

/-- The user toggles the "Performance Mode" menu entry, possible only while the action is
enabled. -/
def userTogglePerformanceAction (s : World) : World :=
  if s.widget.m_performanceAction.enabled then
    performanceAction_setChecked (!s.widget.m_performanceAction.checked) s
  else s

end TeamWidget

/-- The operations on an initialised controller: its methods and slots, and the user
toggling one of its three checkable controls. -/
inductive Op where
  | load
  | saveConfig
  | shutdown
  | enableContent (enable : Bool)
  | setRecentScripts (recent : Option (List QString))
  | forceAutoReload (force : Bool)
  | handleStatus (status : Status)
  | enableDebugger (enable : Bool)
  | showOpenDialog (filename : QString)
  | showAutomaticEntrypointDialog (accepted : Bool) (newlySelected : AutomaticEntrypointsStorage)
  | openSender (filename : QString)
  | openFilename (filename : QString)
  | closeScript
  | sendFilenameAndEntrypoint (entry_point : QString)
  | sendReload
  | sendAutoReload
  | sendEnableDebug (enable : Bool)
  | sendTriggerDebug
  | sendPerformanceDebug (enable : Bool)
  | sendAutomaticEntrypoints
  | updateStyleSheet
  | userToggleReloadAction
  | userToggleEnableDebug
  | userTogglePerformanceAction

/-- One operation applied to a controller. -/
def World.step (env : Env) (s : World) : Op → World
  | .load => TeamWidget.load env s
  | .saveConfig => TeamWidget.saveConfig s
  | .shutdown => TeamWidget.shutdown s
  | .enableContent enable => TeamWidget.enableContent enable s
  | .setRecentScripts recent => TeamWidget.setRecentScripts recent s
  | .forceAutoReload force => TeamWidget.forceAutoReload force s
  | .handleStatus status => TeamWidget.handleStatus status s
  | .enableDebugger enable => TeamWidget.enableDebugger enable s
  | .showOpenDialog filename => TeamWidget.showOpenDialog filename s
  | .showAutomaticEntrypointDialog accepted newlySelected =>
      TeamWidget.showAutomaticEntrypointDialog env accepted newlySelected s
  | .openSender filename => TeamWidget.openSender filename s
  | .openFilename filename => TeamWidget.openFilename filename s
  | .closeScript => TeamWidget.closeScript s
  | .sendFilenameAndEntrypoint entry_point => TeamWidget.sendFilenameAndEntrypoint entry_point s
  | .sendReload => TeamWidget.sendReload s
  | .sendAutoReload => TeamWidget.sendAutoReload s
  | .sendEnableDebug enable => TeamWidget.sendEnableDebug enable s
  | .sendTriggerDebug => TeamWidget.sendTriggerDebug s
  | .sendPerformanceDebug enable => TeamWidget.sendPerformanceDebug enable s
  | .sendAutomaticEntrypoints => TeamWidget.sendAutomaticEntrypoints s
  | .updateStyleSheet => TeamWidget.updateStyleSheet s
  | .userToggleReloadAction => TeamWidget.userToggleReloadAction s
  | .userToggleEnableDebug => TeamWidget.userToggleEnableDebug s
  | .userTogglePerformanceAction => TeamWidget.userTogglePerformanceAction s

/-- A sequence of operations applied in order. -/
def World.run (env : Env) (s : World) (ops : List Op) : World :=
  ops.foldl (World.step env) s

/-- A controller right after construction and `init`, before any other call: no recent
scripts list is attached and nothing but what `init` emits has been sent. -/
def World.fresh (type : StrategyType) (tournamentMode contentEnabled useDarkColors : Bool)
    (settings : SettingsStore) : World :=
  TeamWidget.init type tournamentMode
    { widget := TeamWidget.construct contentEnabled useDarkColors
      recentScripts := [], settings := settings, sent := [] }

/-! ## Entry-point naming helpers -/

/-- An entry of a `QMenu`: a plain action with its text and data, or the action of a
sub-menu with its text and the entries of the sub-menu. -/
inductive MenuEntry where
  | plain (text : String) (data : QString)
  | submenu (text : String) (actions : List MenuEntry)

/-- A `QMenu`, as the list `menu->actions()`. -/
abbrev QMenu := List MenuEntry

/-- The call `QAction::text()`. -/
def MenuEntry.text : MenuEntry → String
  | .plain text _ => text
  | .submenu text _ => text

/-- The call `QAction::menu()`: the sub-menu of the action, null for a plain action. -/
def MenuEntry.menu : MenuEntry → Option QMenu
  | .plain _ _ => none
  | .submenu _ actions => some actions

/-- The call `s.indexOf("/")` on the characters of a string; `none` stands for -1. -/
def indexOfSlash : List Char → Option Nat
  | [] => none
  | c :: cs => if c = '/' then some 0 else (indexOfSlash cs).map (fun i => i + 1)

/-- The call `QString::left(n)`. -/
def qLeft (s : String) (n : Nat) : String := String.mk (s.data.take n)

/-- The call `QString::right(n)`. -/
def qRight (s : String) (n : Nat) : String := String.mk (s.data.drop (s.length - n))

/-- The inner `for` loop of `shortenEntrypointName`, started at index `i`, over the rest of
the sibling text `name` and the rest of `nameLeft`: the index at which it breaks, or `none`
when it runs to the end of `name` without breaking. -/
def divergenceIndex : List Char → List Char → Nat → Option Nat
  | [], _, _ => none
  | _ :: _, [], i => some i
  | c :: cs, d :: ds, i => if c != d then some i else divergenceIndex cs ds (i + 1)

/-- The `foreach` loop of `shortenEntrypointName` over the actions of a menu, threading
`maxCommon` and `nextMenu`. -/
def scanActions (nameLeft : String) : List MenuEntry → Nat × Option QMenu → Nat × Option QMenu
  | [], st => st
  | action :: rest, (maxCommon, nextMenu) =>
      if action.text = nameLeft then
        scanActions nameLeft rest (maxCommon, action.menu)
      else
        match divergenceIndex action.text.data nameLeft.data 0 with
        | some i => scanActions nameLeft rest (max maxCommon i, nextMenu)
        | none => scanActions nameLeft rest (maxCommon, nextMenu)

/-- The shortened form of the path segment `nameLeft` among the actions of `menu`, as
computed in one round of `shortenEntrypointName`: its first `maxCommon + 1` characters. -/
def shortenSegment (menu : QMenu) (nameLeft : String) : String :=
  qLeft nameLeft ((scanActions nameLeft menu (0, none)).1 + 1)

/-- The expression `left + ((left.isEmpty()) ? "" : "/") + s`. -/
def joinPath (left s : String) : String :=
  left ++ (if left.length = 0 then "" else "/") ++ s

/-- The `while` loop of `shortenEntrypointName`, running at most `fuel` rounds.  The result
is `none` when `Q_ASSERT(nextMenu != nullptr)` fails, and when the fuel runs out, which
does not happen for `fuel > right.length`. -/
def shortenLoop (targetLength : Int) : Nat → QMenu → String → String → Option String
  | 0, _, _, _ => none
  | fuel + 1, menu, left, right =>
      if (left.length : Int) + 1 + (right.length : Int) > targetLength then
        match indexOfSlash right.data with
        | none => some (joinPath left right)
        | some idx =>
            let nameLeft := qLeft right idx
            let nameRight := qRight right (right.length - idx - 1)
            match (scanActions nameLeft menu (0, none)).2 with
            | none => none
            | some nextMenu =>
                shortenLoop targetLength fuel nextMenu
                  (joinPath left (shortenSegment menu nameLeft)) nameRight
      else some (joinPath left right)

/-- The method `TeamWidget::shortenEntrypointName`; `none` when the assertion
`Q_ASSERT(nextMenu != nullptr)` fails. -/
def TeamWidget.shortenEntrypointName (menu : QMenu) (name : String) (targetLength : Int) :
    Option String :=
  shortenLoop targetLength (name.length + 1) menu "" name

/-- The method `TeamWidget::addEntryPoint`, with at most `fuel` nested calls; the result
is the menu afterwards, `none` when the sub-menu pointer taken from the last action is
null, and when the fuel runs out, which does not happen for `fuel > name.length`. -/
def addEntryPointLoop : Nat → QMenu → String → QString → Option QMenu
  | 0, _, _, _ => none
  | fuel + 1, menu, name, entryPoint =>
      match indexOfSlash name.data with
      | none => some (menu ++ [.plain name entryPoint])
      | some idx =>
          let nameLeft := qLeft name idx
          let nameRight := qRight name (name.length - idx - 1)
          match menu.getLast? with
          | some action =>
              if action.text = nameLeft then
                match action.menu with
                | none => none
                | some subMenu =>
                    (addEntryPointLoop fuel subMenu nameRight entryPoint).map
                      (fun m => menu.dropLast ++ [.submenu nameLeft m])
              else
                (addEntryPointLoop fuel [] nameRight entryPoint).map
                  (fun m => menu ++ [.submenu nameLeft m])
          | none =>
              (addEntryPointLoop fuel [] nameRight entryPoint).map
                (fun m => menu ++ [.submenu nameLeft m])

/-- The method `TeamWidget::addEntryPoint`. -/
def TeamWidget.addEntryPoint (menu : QMenu) (name : String) (entryPoint : QString) : Option QMenu :=
  addEntryPointLoop (name.length + 1) menu name entryPoint

/-- A menu filled by calling `addEntryPoint` for each name in turn, each entry point being
stored under its own name. -/
def menuOfNames (names : List String) : Option QMenu :=
  names.foldl (fun menu name => menu.bind (fun m => TeamWidget.addEntryPoint m name (some name)))
    (some [])


/-! ## Definitions used to state the theorems -/

/-- The command in which exactly the given strategy sub-message is populated, with the
given content, and nothing else is. -/
def Command.only (m : SubMessage) (strategy : CommandStrategy) : Command :=
  match m with
  | .strategy_blue => { strategy_blue := some strategy }
  | .strategy_yellow => { strategy_yellow := some strategy }
  | .strategy_autoref => { strategy_autoref := some strategy }
  | .replay_blue_strategy => { replay := some { blue_strategy := some strategy } }
  | .replay_yellow_strategy => { replay := some { yellow_strategy := some strategy } }

/-- The fixed stage-expansion table of the specification: `forGame` for the seven in-game
stages, `forBreak` for the four break stages and `forPostgame` for the post-game stage,
each only when set. -/
def stageExpansionTable (a : AutomaticEntrypointsStorage) : List Mapping :=
  (match a.forGame with
    | some e =>
        [{ stage := .NORMAL_SECOND_HALF_PRE, entry_point := e },
         { stage := .NORMAL_SECOND_HALF, entry_point := e },
         { stage := .EXTRA_FIRST_HALF_PRE, entry_point := e },
         { stage := .EXTRA_FIRST_HALF, entry_point := e },
         { stage := .EXTRA_SECOND_HALF_PRE, entry_point := e },
         { stage := .EXTRA_SECOND_HALF, entry_point := e },
         { stage := .PENALTY_SHOOTOUT, entry_point := e }]
    | none => [])
  ++ (match a.forBreak with
    | some e =>
        [{ stage := .NORMAL_HALF_TIME, entry_point := e },
         { stage := .EXTRA_TIME_BREAK, entry_point := e },
         { stage := .EXTRA_HALF_TIME, entry_point := e },
         { stage := .PENALTY_SHOOTOUT_BREAK, entry_point := e }]
    | none => [])
  ++ (match a.forPostgame with
    | some e => [{ stage := .POST_GAME, entry_point := e }]
    | none => [])

/-- The recent-scripts order of the specification, "most-recent-first, with no
duplicates", of a history of file names listed from the most recent one: every name is
kept at its first (most recent) place only. -/
def mostRecentFirst : List QString → List QString
  | [] => []
  | x :: xs => x :: (mostRecentFirst xs).filter (fun y => !QString.eq y x)

/-- A list of file names without two equal entries, for Qt string equality. -/
def NoDuplicates (l : List QString) : Prop :=
  l.Pairwise (fun a b => QString.eq a b = false)

/-- An empty settings store. -/
def emptySettings : SettingsStore := fun _ => none

/-- A build without `EASY_MODE` on a file system where no script file exists; automatic
entry points are equal when their three strings are. -/
def noFiles : Env :=
  { EASY_MODE := false, fileExists := fun _ => false
    entrypointsEqual := fun a b => decide (a = b) }

/-- A status whose strategy block is for the given role and reports the given state. -/
def statusOf (type : StrategyType) (state : StrategyState) (name : String) : Status :=
  { status_strategy := some { type := type, status := { state := state, name := name } } }


/-- Every `auto_reload` field that a command carries has the value true. -/
def Command.AutoReloadTrue (c : Command) : Prop :=
  ∀ (m : SubMessage) (strategy : CommandStrategy), c.strategyAt m = some strategy →
    ∀ v : Bool, strategy.auto_reload = some v → v = true

/-- What holds of a controller in tournament mode: the auto-reload action is checked and
disabled, no user preference has been recorded, and every `auto_reload` command emitted
so far carries true. -/
def TournamentInv (s : World) : Prop :=
  s.widget.m_isTournamentMode = true
  ∧ s.widget.m_reloadAction.checked = true
  ∧ s.widget.m_reloadAction.enabled = false
  ∧ s.widget.m_userAutoReload = false
  ∧ ∀ c ∈ s.sent, c.AutoReloadTrue

/-- What holds of an autoref controller: the debug button is checked and disabled. -/
def AutorefInv (s : World) : Prop :=
  s.widget.m_type = .AUTOREF
  ∧ s.widget.m_btnEnableDebug.checked = true
  ∧ s.widget.m_btnEnableDebug.enabled = false


/-! ## The stages of `load`

`TeamWidget.load` is the composition of the following steps, one per statement of the
source; `q` is the settings object inside the group of the role, `q2` the one inside its
sub-group "AutomaticEntrypoints". -/

/-- The file name step of `load`. -/
def TeamWidget.loadFilename (env : Env) (previousFilename : QString) (s : World) : World :=
  if !QString.eq previousFilename (some "") then
    { s with widget := { s.widget with m_filename := previousFilename } }
  else if s.widget.m_recentScripts then
    if env.EASY_MODE then
      match s.recentScripts.filter (fun x => TeamWidget.tsInitRegexMatch x.toStdString.data) with
      | first :: _ => { s with widget := { s.widget with m_filename := first } }
      | [] => s
    else s
  else s

/-- The entry point step of `load`. -/
def TeamWidget.loadEntryPoint (q : QSettings) (s : World) : World :=
  { s with widget := { s.widget with m_entryPoint := (q.value "EntryPoint" .invalid).toString } }

/-- The auto-reload step of `load`. -/
def TeamWidget.loadAutoReload (q : QSettings) (s : World) : World :=
  if !s.widget.m_isTournamentMode then
    TeamWidget.reloadAction_setChecked (q.value "AutoReload" .invalid).toBool s
  else s

/-- The performance mode step of `load`. -/
def TeamWidget.loadPerformanceMode (q : QSettings) (s : World) : World :=
  TeamWidget.performanceAction_setChecked (q.value "PerformanceMode" (.bool true)).toBool s

/-- The debug step of `load`. -/
def TeamWidget.loadEnableDebug (q : QSettings) (s : World) : World :=
  if s.widget.m_type ≠ StrategyType.AUTOREF then
    TeamWidget.btnEnableDebug_setChecked (q.value "EnableDebug" (.bool false)).toBool s
  else s

/-- The automatic entry points step of `load`. -/
def TeamWidget.loadAutomaticEntrypoints (q2 : QSettings) (s : World) : World :=
  { s with widget := { s.widget with m_automaticEntrypoints :=
    { forGame := (q2.value "game" .invalid).toString
      forBreak := (q2.value "break" .invalid).toString
      forPostgame := (q2.value "postgame" .invalid).toString } } }

/-- The last step of `load`: the commands sent when the script file exists. -/
def TeamWidget.loadSend (env : Env) (s : World) : World :=
  if env.fileExists s.widget.m_filename then
    TeamWidget.sendAutomaticEntrypoints (TeamWidget.sendFilenameAndEntrypoint s.widget.m_entryPoint s)
  else s

/-- The settings object of `load` and `saveConfig` inside the group of the role. -/
def TeamWidget.roleSettings (s : World) : QSettings :=
  QSettings.beginGroup { group := [], store := s.settings } (TeamWidget.teamTypeName s.widget.m_type)


/-- What holds of a controller initialised for a role and a mode: both stay what `init`
made them, and on an autoref controller the debug button is checked and disabled. -/
def RoleInv (type : StrategyType) (tournamentMode : Bool) (s : World) : Prop :=
  s.widget.m_type = type
  ∧ s.widget.m_isTournamentMode = tournamentMode
  ∧ (type = .AUTOREF →
      s.widget.m_btnEnableDebug.checked = true ∧ s.widget.m_btnEnableDebug.enabled = false)


/-- The controller obtained by `saveConfig` on `s` followed by `load` on a fresh controller
of the same role and mode over the settings store that `saveConfig` leaves. -/
def savedThenLoaded (env : Env) (contentEnabled useDarkColors : Bool) (s : World) : World :=
  TeamWidget.load env
    (World.fresh s.widget.m_type s.widget.m_isTournamentMode contentEnabled useDarkColors
      (TeamWidget.saveConfig s).settings)

/-- The part of a controller that `saveConfig` and `load` read or write. -/
structure Persisted where
  m_type : StrategyType
  m_isTournamentMode : Bool
  m_userAutoReload : Bool
  m_filename : QString
  m_entryPoint : QString
  m_automaticEntrypoints : AutomaticEntrypointsStorage
  m_recentScripts : Bool
  reloadEnabled : Bool
  reloadChecked : Bool
  enableDebugChecked : Bool
  performanceChecked : Bool

/-- The persisted part of a controller. -/
def World.persisted (s : World) : Persisted :=
  { m_type := s.widget.m_type
    m_isTournamentMode := s.widget.m_isTournamentMode
    m_userAutoReload := s.widget.m_userAutoReload
    m_filename := s.widget.m_filename
    m_entryPoint := s.widget.m_entryPoint
    m_automaticEntrypoints := s.widget.m_automaticEntrypoints
    m_recentScripts := s.widget.m_recentScripts
    reloadEnabled := s.widget.m_reloadAction.enabled
    reloadChecked := s.widget.m_reloadAction.checked
    enableDebugChecked := s.widget.m_btnEnableDebug.checked
    performanceChecked := s.widget.m_performanceAction.checked }


/-- Whether the path of `name` is present in the menu: every segment of `name` before a
"/" is found by the `foreach` loop of `shortenEntrypointName` as an action with a
sub-menu, so that `Q_ASSERT(nextMenu != nullptr)` holds in every round. -/
def pathPresentLoop : Nat → QMenu → String → Bool
  | 0, _, _ => false
  | fuel + 1, menu, right =>
      match indexOfSlash right.data with
      | none => true
      | some idx =>
          match (scanActions (qLeft right idx) menu (0, none)).2 with
          | none => false
          | some nextMenu => pathPresentLoop fuel nextMenu (qRight right (right.length - idx - 1))

/-- Whether the path of `name` is present in the menu. -/
def pathPresent (menu : QMenu) (name : String) : Bool :=
  pathPresentLoop (name.length + 1) menu name

/-- The menu of the entry points "a/ab/abc", "a/ac/x" and "b". -/
def exampleMenu : QMenu :=
  [.submenu "a" [.submenu "ab" [.plain "abc" (some "a/ab/abc")],
                 .submenu "ac" [.plain "x" (some "a/ac/x")]],
   .plain "b" (some "b")]

/-- The menu of the entry points "a/x" and "ab/x". -/
def collidingMenu : QMenu :=
  [.submenu "a" [.plain "x" (some "a/x")], .submenu "ab" [.plain "x" (some "ab/x")]]

/-- A sequence of operations that selects a script and an entry point, switches
auto-reload and debugging on and chooses an automatic entry point for the game. -/
def roundtripOps : List Op :=
  [.enableContent true, .openFilename (some "init.lua"),
   .sendFilenameAndEntrypoint (some "main"), .userToggleReloadAction, .userToggleEnableDebug,
   .showAutomaticEntrypointDialog true { forGame := some "game" }]

/-- The yellow controller, outside tournament mode, after `roundtripOps`. -/
def roundtripState : World :=
  World.run noFiles (World.fresh .YELLOW false true false emptySettings) roundtripOps

/-- A sequence of operations on a tournament controller that touches auto-reload. -/
def tournamentOps : List Op :=
  [.enableContent true, .userToggleReloadAction, .forceAutoReload false, .load, .sendAutoReload]

/-- The blue controller, in tournament mode, after `tournamentOps`. -/
def tournamentState : World :=
  World.run noFiles (World.fresh .BLUE true false false emptySettings) tournamentOps


/-- The texts of the groups, the actions with a sub-menu, at the top level of a menu, in
the order of the menu. -/
def groupNames (menu : QMenu) : List String :=
  menu.filterMap (fun entry =>
    match entry with
    | .submenu text _ => some text
    | .plain _ _ => none)

/-- The menu of the entry points "a/x" and "b/y". -/
def twoGroupMenu : QMenu :=
  [.submenu "a" [.plain "x" (some "a/x")], .submenu "b" [.plain "y" (some "b/y")]]

/-- The calls `forceAutoReload(true)` and then `forceAutoReload(false)`. -/
def forceThenRelease (s : World) : World :=
  TeamWidget.forceAutoReload false (TeamWidget.forceAutoReload true s)

/-! ## Theorems -/

theorem commandStrategyFromType_empty (t : StrategyType) (f : CommandStrategy → CommandStrategy) :
    TeamWidget.commandStrategyFromType t {} f = Command.only (TeamWidget.subMessageOf t) (f {}) := by
  cases t <;> rfl

theorem QString_eq_refl (a : QString) : QString.eq a a = true := by
  simp [QString.eq]

theorem QString_eq_symm (a b : QString) : QString.eq a b = QString.eq b a := by
  simp only [QString.eq, Bool.beq_comm]

theorem QString_eq_trans {a b c : QString} (h1 : QString.eq a b = true) (h2 : QString.eq b c = true) :
    QString.eq a c = true := by
  simp only [QString.eq, beq_iff_eq] at *
  exact h1.trans h2

/-- C2: `sendAutomaticEntrypoints` emits no command exactly when `forGame`, `forBreak` and
`forPostgame` are all unset; otherwise it emits exactly one command, in which only the
sub-message of the role is populated and only its mapping list is set, and that list is
the fixed stage-expansion table for the fields that are set; no stage is mapped twice. -/
theorem C2_sendAutomaticEntrypoints_table (s : World) :
    ((TeamWidget.sendAutomaticEntrypoints s).sent = s.sent ↔
        (s.widget.m_automaticEntrypoints.forGame = none
          ∧ s.widget.m_automaticEntrypoints.forBreak = none
          ∧ s.widget.m_automaticEntrypoints.forPostgame = none))
    ∧ (TeamWidget.sendAutomaticEntrypoints s).sent =
        (if s.widget.m_automaticEntrypoints.forGame = none
            ∧ s.widget.m_automaticEntrypoints.forBreak = none
            ∧ s.widget.m_automaticEntrypoints.forPostgame = none
          then s.sent
          else s.sent ++ [Command.only (TeamWidget.subMessageOf s.widget.m_type)
            { automatic_entrypoints := some (stageExpansionTable s.widget.m_automaticEntrypoints) }])
    ∧ ((stageExpansionTable s.widget.m_automaticEntrypoints).map Mapping.stage).Nodup
    ∧ (TeamWidget.sendAutomaticEntrypoints s).widget = s.widget := by
  rcases s with ⟨w, r, st, sent⟩
  rcases hw : w.m_automaticEntrypoints with ⟨g, b, p⟩
  cases g <;> cases b <;> cases p <;>
    simp [TeamWidget.sendAutomaticEntrypoints, AutomaticEntrypointsStorage.allNull, hw,
      QString.isNull, World.emit, commandStrategyFromType_empty, stageExpansionTable,
      TeamWidget.automaticEntrypointMappings, TeamWidget.gameStages, TeamWidget.breakStages,
      TeamWidget.add_mapping, QString.toStdString]


theorem load_eq_stages (env : Env) (s : World) :
    TeamWidget.load env s =
      TeamWidget.loadSend env
        (TeamWidget.loadAutomaticEntrypoints
          ((TeamWidget.roleSettings s).beginGroup "AutomaticEntrypoints")
          (TeamWidget.loadEnableDebug (TeamWidget.roleSettings s)
            (TeamWidget.loadPerformanceMode (TeamWidget.roleSettings s)
              (TeamWidget.loadAutoReload (TeamWidget.roleSettings s)
                (TeamWidget.loadEntryPoint (TeamWidget.roleSettings s)
                  (TeamWidget.loadFilename env
                    ((TeamWidget.roleSettings s).value "Script" .invalid).toString s)))))) := rfl


/-- C9: each of `sendReload`, `sendAutoReload`, `sendEnableDebug`, `sendTriggerDebug` and
`sendPerformanceDebug` emits exactly one command, in which only the sub-message of the
role of the controller is populated (BLUE: strategy_blue, YELLOW: strategy_yellow,
AUTOREF: strategy_autoref, REPLAY_BLUE: replay.blue_strategy, REPLAY_YELLOW:
replay.yellow_strategy) and exactly one field of it is set (reload = true, auto_reload,
enable_debug = enable, debug, performance_mode = enable); two distinct roles never
populate the same sub-message. -/
theorem C9_send_one_field_in_role_submessage (s : World) (enable : Bool) :
    ((TeamWidget.sendReload s).sent
        = s.sent ++ [Command.only (TeamWidget.subMessageOf s.widget.m_type) { reload := some true }]
      ∧ (TeamWidget.sendAutoReload s).sent
        = s.sent ++ [Command.only (TeamWidget.subMessageOf s.widget.m_type)
            { auto_reload := some s.widget.m_reloadAction.checked }]
      ∧ (TeamWidget.sendEnableDebug enable s).sent
        = s.sent ++ [Command.only (TeamWidget.subMessageOf s.widget.m_type) { enable_debug := some enable }]
      ∧ (TeamWidget.sendTriggerDebug s).sent
        = s.sent ++ [Command.only (TeamWidget.subMessageOf s.widget.m_type) { debug := true }]
      ∧ (TeamWidget.sendPerformanceDebug enable s).sent
        = s.sent ++ [Command.only (TeamWidget.subMessageOf s.widget.m_type)
            { performance_mode := some enable }])
    ∧ (CommandStrategy.numFieldsSet { reload := some true } = 1
      ∧ CommandStrategy.numFieldsSet { auto_reload := some s.widget.m_reloadAction.checked } = 1
      ∧ CommandStrategy.numFieldsSet { enable_debug := some enable } = 1
      ∧ CommandStrategy.numFieldsSet { debug := true } = 1
      ∧ CommandStrategy.numFieldsSet { performance_mode := some enable } = 1)
    ∧ (TeamWidget.subMessageOf .BLUE = .strategy_blue
      ∧ TeamWidget.subMessageOf .YELLOW = .strategy_yellow
      ∧ TeamWidget.subMessageOf .AUTOREF = .strategy_autoref
      ∧ TeamWidget.subMessageOf .REPLAY_BLUE = .replay_blue_strategy
      ∧ TeamWidget.subMessageOf .REPLAY_YELLOW = .replay_yellow_strategy)
    ∧ (∀ (m : SubMessage) (strategy : CommandStrategy) (m2 : SubMessage),
        (Command.only m strategy).strategyAt m2 = if m2 = m then some strategy else none)
    ∧ (∀ (t1 t2 : StrategyType) (f g : CommandStrategy → CommandStrategy) (m : SubMessage),
        t1 = t2
        ∨ (TeamWidget.commandStrategyFromType t1 {} f).strategyAt m = none
        ∨ (TeamWidget.commandStrategyFromType t2 {} g).strategyAt m = none) := by
  refine ⟨⟨?_, ?_, ?_, ?_, ?_⟩, ⟨rfl, ?_, rfl, rfl, rfl⟩, ⟨rfl, rfl, rfl, rfl, rfl⟩, ?_, ?_⟩
  · simp [TeamWidget.sendReload, World.emit, commandStrategyFromType_empty]
  · simp only [TeamWidget.sendAutoReload, World.emit, commandStrategyFromType_empty]
    split <;> rfl
  · simp [TeamWidget.sendEnableDebug, World.emit, commandStrategyFromType_empty]
  · simp [TeamWidget.sendTriggerDebug, World.emit, commandStrategyFromType_empty]
  · simp [TeamWidget.sendPerformanceDebug, World.emit, commandStrategyFromType_empty]
  · simp [CommandStrategy.numFieldsSet]
  · intro m strategy m2
    cases m <;> cases m2 <;> simp [Command.only, Command.strategyAt]
  · intro t1 t2 f g m
    cases t1 <;> cases t2 <;> cases m <;>
      simp [TeamWidget.commandStrategyFromType, Command.strategyAt]

/-- C8 as stated fails: on a blue controller that has been told its strategy failed,
`closeScript` leaves the notification flag set. -/
theorem C8_closeScript_flags_counterexample :
    (TeamWidget.closeScript
        (World.run noFiles (World.fresh .BLUE false true false emptySettings)
          [.handleStatus (statusOf .BLUE .FAILED "strategy")])).widget.m_notification = true
    ∧ (TeamWidget.closeScript
        (World.run noFiles (World.fresh .BLUE false true false emptySettings)
          [.handleStatus (statusOf .BLUE .COMPILING "strategy")])).widget.m_compiling = true := by
  constructor <;> decide

/-- C8 amended: `closeScript` emits exactly one command, a close command in the sub-message
of the role, and leaves the controller as it is, the notification flag and the compiling
flag included. -/
theorem C8_closeScript_emits_close (s : World) :
    (TeamWidget.closeScript s).sent
        = s.sent ++ [Command.only (TeamWidget.subMessageOf s.widget.m_type) { close := true }]
    ∧ CommandStrategy.numFieldsSet { close := true } = 1
    ∧ (TeamWidget.closeScript s).widget = s.widget
    ∧ (TeamWidget.closeScript s).widget.m_notification = s.widget.m_notification
    ∧ (TeamWidget.closeScript s).widget.m_compiling = s.widget.m_compiling := by
  simp [TeamWidget.closeScript, World.emit, commandStrategyFromType_empty,
    CommandStrategy.numFieldsSet]

/-- C5 as stated fails: while content is disabled, a Closed status for the role of the
controller leaves the displayed name, the file name, the notification flag and the
"disable" action as they were. -/
theorem C5_handleStatus_closed_counterexample :
    (TeamWidget.handleStatus (statusOf .BLUE .CLOSED "")
        (World.run noFiles (World.fresh .BLUE false true false emptySettings)
          [.openFilename (some "init.lua"), .sendFilenameAndEntrypoint (some "main"),
           .handleStatus (statusOf .BLUE .FAILED "strategy"),
           .enableContent false])).widget.m_btnOpen.text = "strategy"
    ∧ (TeamWidget.handleStatus (statusOf .BLUE .CLOSED "")
        (World.run noFiles (World.fresh .BLUE false true false emptySettings)
          [.openFilename (some "init.lua"), .sendFilenameAndEntrypoint (some "main"),
           .handleStatus (statusOf .BLUE .FAILED "strategy"),
           .enableContent false])).widget.m_filename = some "init.lua"
    ∧ (TeamWidget.handleStatus (statusOf .BLUE .CLOSED "")
        (World.run noFiles (World.fresh .BLUE false true false emptySettings)
          [.openFilename (some "init.lua"), .sendFilenameAndEntrypoint (some "main"),
           .handleStatus (statusOf .BLUE .FAILED "strategy"),
           .enableContent false])).widget.m_entryPoint = some "main"
    ∧ (TeamWidget.handleStatus (statusOf .BLUE .CLOSED "")
        (World.run noFiles (World.fresh .BLUE false true false emptySettings)
          [.openFilename (some "init.lua"), .sendFilenameAndEntrypoint (some "main"),
           .handleStatus (statusOf .BLUE .FAILED "strategy"),
           .enableContent false])).widget.m_notification = true
    ∧ (TeamWidget.handleStatus (statusOf .BLUE .CLOSED "")
        (World.run noFiles (World.fresh .BLUE false true false emptySettings)
          [.openFilename (some "init.lua"), .sendFilenameAndEntrypoint (some "main"),
           .handleStatus (statusOf .BLUE .FAILED "strategy"),
           .enableContent false])).widget.m_actionDisable.visible = true := by
  refine ⟨?_, ?_, ?_, ?_, ?_⟩ <;> decide

/-- C5 amended: for every prior state in which content is enabled, `handleStatus` with a
status whose strategy block is for the role of the controller and has state Closed leaves
the displayed name equal to "Disabled", whatever name the status carries, the local file
name and entry point unset, the notification flag false and the "disable" action hidden. -/
theorem C5_handleStatus_closed (s : World) (status : Status) (strategy : StatusStrategy)
    (hEnabled : s.widget.m_contentEnabled = true)
    (hBlock : status.status_strategy = some { type := s.widget.m_type, status := strategy })
    (hClosed : strategy.state = .CLOSED) :
    (TeamWidget.handleStatus status s).widget.m_btnOpen.text = "Disabled"
    ∧ (TeamWidget.handleStatus status s).widget.m_filename = none
    ∧ (TeamWidget.handleStatus status s).widget.m_entryPoint = none
    ∧ (TeamWidget.handleStatus status s).widget.m_notification = false
    ∧ (TeamWidget.handleStatus status s).widget.m_actionDisable.visible = false := by
  simp [TeamWidget.handleStatus, hEnabled, hBlock, hClosed, TeamWidget.updateStyleSheet]

/-- C5 amended, at a concrete input: a blue controller with content enabled, a script open
and a failed strategy named "strategy" receives a Closed status. -/
theorem C5_handleStatus_closed_witness :
    (TeamWidget.handleStatus (statusOf .BLUE .CLOSED "strategy")
        (World.run noFiles (World.fresh .BLUE false true false emptySettings)
          [.openFilename (some "init.lua"),
           .handleStatus (statusOf .BLUE .FAILED "strategy")])).widget.m_btnOpen.text = "Disabled"
    ∧ (TeamWidget.handleStatus (statusOf .BLUE .CLOSED "strategy")
        (World.run noFiles (World.fresh .BLUE false true false emptySettings)
          [.openFilename (some "init.lua"),
           .handleStatus (statusOf .BLUE .FAILED "strategy")])).widget.m_filename = none :=
  have h := C5_handleStatus_closed
    (World.run noFiles (World.fresh .BLUE false true false emptySettings)
      [.openFilename (some "init.lua"), .handleStatus (statusOf .BLUE .FAILED "strategy")])
    (statusOf .BLUE .CLOSED "strategy") { state := .CLOSED, name := "strategy" }
    (by decide) (by decide) (by decide)
  ⟨h.1, h.2.1⟩

/-- C10: with content enabled and a status carrying a strategy block for the role of the
controller, after `handleStatus` the compiling flag is true exactly when the reported state
is Compiling, and the notification flag is false for Closed and Running, true for Failed
and unchanged for Compiling; with content disabled, or without a block for the role, the
whole controller state is unchanged. -/
theorem C10_handleStatus_flags (s : World) (status : Status) :
    (∀ strategy : StatusStrategy,
        s.widget.m_contentEnabled = true →
        status.status_strategy = some { type := s.widget.m_type, status := strategy } →
        ((TeamWidget.handleStatus status s).widget.m_compiling = true ↔ strategy.state = .COMPILING)
        ∧ (strategy.state = .CLOSED ∨ strategy.state = .RUNNING →
            (TeamWidget.handleStatus status s).widget.m_notification = false)
        ∧ (strategy.state = .FAILED →
            (TeamWidget.handleStatus status s).widget.m_notification = true)
        ∧ (strategy.state = .COMPILING →
            (TeamWidget.handleStatus status s).widget.m_notification = s.widget.m_notification))
    ∧ (s.widget.m_contentEnabled = false
        ∨ (∀ statusStrategy, status.status_strategy = some statusStrategy →
            statusStrategy.type ≠ s.widget.m_type) →
        TeamWidget.handleStatus status s = s) := by
  constructor
  · intro strategy hEnabled hBlock
    rcases hs : strategy.state <;>
      simp [TeamWidget.handleStatus, hEnabled, hBlock, hs, TeamWidget.updateStyleSheet]
  · rintro (hDisabled | hNone)
    · simp [TeamWidget.handleStatus, hDisabled]
    · unfold TeamWidget.handleStatus
      rcases hst : status.status_strategy with _ | ss
      · simp
      · simp [hNone ss hst]

/-- C10 at concrete inputs: an enabled blue controller with a failed strategy receives a
Compiling status; a disabled one receives a Running status. -/
theorem C10_handleStatus_flags_witness :
    ((TeamWidget.handleStatus (statusOf .BLUE .COMPILING "strategy")
        (World.run noFiles (World.fresh .BLUE false true false emptySettings)
          [.handleStatus (statusOf .BLUE .FAILED "strategy")])).widget.m_compiling = true
      ↔ StrategyState.COMPILING = .COMPILING)
    ∧ (TeamWidget.handleStatus (statusOf .BLUE .COMPILING "strategy")
        (World.run noFiles (World.fresh .BLUE false true false emptySettings)
          [.handleStatus (statusOf .BLUE .FAILED "strategy")])).widget.m_notification = true
    ∧ (TeamWidget.handleStatus (statusOf .BLUE .RUNNING "strategy")
        (World.run noFiles (World.fresh .BLUE false true false emptySettings)
          [.handleStatus (statusOf .BLUE .FAILED "strategy"), .enableContent false])).widget.m_notification
        = true :=
  have h := (C10_handleStatus_flags
    (World.run noFiles (World.fresh .BLUE false true false emptySettings)
      [.handleStatus (statusOf .BLUE .FAILED "strategy")])
    (statusOf .BLUE .COMPILING "strategy")).1 { state := .COMPILING, name := "strategy" }
    (by decide) (by decide)
  have h2 := (C10_handleStatus_flags
    (World.run noFiles (World.fresh .BLUE false true false emptySettings)
      [.handleStatus (statusOf .BLUE .FAILED "strategy"), .enableContent false])
    (statusOf .BLUE .RUNNING "strategy")).2 (Or.inl (by decide))
  ⟨h.1, (h.2.2.2 rfl).trans (by decide), (congrArg (fun w => w.widget.m_notification) h2).trans (by decide)⟩


theorem mostRecentFirst_noDuplicates (l : List QString) : NoDuplicates (mostRecentFirst l) := by
  induction l with
  | nil => exact List.Pairwise.nil
  | cons x xs ih =>
    unfold mostRecentFirst
    refine List.Pairwise.cons ?_ (List.Pairwise.filter _ ih)
    intro y hy
    have hy2 := (List.mem_filter.mp hy).2
    rw [QString_eq_symm]
    simpa using hy2

theorem mostRecentFirst_of_noDuplicates (l : List QString) (h : NoDuplicates l) :
    mostRecentFirst l = l := by
  induction l with
  | nil => rfl
  | cons x xs ih =>
    have hx := List.pairwise_cons.mp h
    unfold mostRecentFirst
    rw [ih hx.2]
    congr 1
    apply List.filter_eq_self.mpr
    intro y hy
    have := hx.1 y hy
    rw [QString_eq_symm] at this
    simp [this]

theorem filter_ne_of_forall_ne (f : QString) (l : List QString)
    (h : ∀ y ∈ l, QString.eq y f = false) :
    l.filter (fun x => !QString.eq x f) = l := by
  apply List.filter_eq_self.mpr
  intro y hy
  simp [h y hy]

theorem take_filter_take (f : QString) (D : List QString) (h : NoDuplicates D) (n : Nat) :
    ((D.take (n + 1)).filter (fun x => !QString.eq x f)).take n
      = (D.filter (fun x => !QString.eq x f)).take n := by
  induction D generalizing n with
  | nil => simp
  | cons x xs ih =>
    have hx := List.pairwise_cons.mp h
    by_cases hxf : QString.eq x f = true
    · have hall : ∀ y ∈ xs, QString.eq y f = false := by
        intro y hy
        have hxy := hx.1 y hy
        by_contra hc
        have hyf : QString.eq y f = true := by simpa using hc
        have hfy : QString.eq f y = true := by rw [QString_eq_symm]; exact hyf
        have := QString_eq_trans hxf hfy
        rw [hxy] at this
        exact Bool.false_ne_true this
      have hall2 : ∀ y ∈ xs.take n, QString.eq y f = false :=
        fun y hy => hall y (List.mem_of_mem_take hy)
      simp only [List.take_succ_cons, List.filter_cons, hxf, Bool.not_true, Bool.false_eq_true,
        if_false]
      rw [filter_ne_of_forall_ne f _ hall2, filter_ne_of_forall_ne f _ hall]
      simp
    · have hxf2 : QString.eq x f = false := by simpa using hxf
      cases n with
      | zero => simp
      | succ m =>
        simp only [List.take_succ_cons, List.filter_cons, hxf2, Bool.not_false, if_true]
        rw [ih hx.2 m]

theorem openFilename_recentScripts (f : QString) (s : World)
    (h : s.widget.m_recentScripts = true) :
    (TeamWidget.openFilename f s).recentScripts
        = (f :: s.recentScripts.filter (fun x => !QString.eq x f)).take 5
    ∧ (TeamWidget.openFilename f s).widget.m_recentScripts = true := by
  simp [TeamWidget.openFilename, h, World.emit]

theorem run_append (env : Env) (s : World) (ops1 ops2 : List Op) :
    World.run env s (ops1 ++ ops2) = World.run env (World.run env s ops1) ops2 := by
  simp [World.run, List.foldl_append]

theorem run_opens_recentScripts (env : Env) (s : World) (fs : List QString)
    (hptr : s.widget.m_recentScripts = true) (hnodup : NoDuplicates s.recentScripts) :
    (World.run env s (fs.map Op.openFilename)).widget.m_recentScripts = true
    ∧ (World.run env s (fs.map Op.openFilename)).recentScripts
        = if fs = [] then s.recentScripts
          else (mostRecentFirst (fs.reverse ++ s.recentScripts)).take 5 := by
  induction fs using List.reverseRecOn with
  | nil => simp [World.run, hptr]
  | append_singleton fs f ih =>
    rw [List.map_append, run_append]
    have hstep := openFilename_recentScripts f (World.run env s (fs.map Op.openFilename)) ih.1
    simp only [List.map_cons, List.map_nil, World.run, List.foldl_cons, List.foldl_nil, World.step]
    simp only [World.run] at hstep ih
    refine ⟨hstep.2, ?_⟩
    rw [hstep.1, ih.2]
    simp only [List.append_eq_nil, List.cons_ne_self, and_false, if_false, List.reverse_append,
      List.reverse_cons, List.reverse_nil, List.nil_append, List.singleton_append,
      List.cons_append, mostRecentFirst, reduceCtorEq]
    by_cases hfs : fs = []
    · subst hfs
      simp [mostRecentFirst_of_noDuplicates _ hnodup]
    · simp only [hfs, if_false]
      have := take_filter_take f _ (mostRecentFirst_noDuplicates (fs.reverse ++ s.recentScripts)) 4
      simp only [List.take_succ_cons]
      rw [this]

/-- C1: on a controller with a recent-scripts list attached that starts without
duplicates (in particular empty), after every call of a sequence of `open(f)` calls the
list has at most 5 entries, has no duplicates, starts with the file just opened, keeps
behind it the entries it had before the call other than that file, in their order, and is
altogether the first five distinct file names in order of most recent open. -/
theorem C1_open_recent_scripts (env : Env) (s : World) (fs : List QString) (f : QString)
    (hptr : s.widget.m_recentScripts = true) (hnodup : NoDuplicates s.recentScripts) :
    (World.run env s ((fs ++ [f]).map Op.openFilename)).recentScripts.length ≤ 5
    ∧ NoDuplicates (World.run env s ((fs ++ [f]).map Op.openFilename)).recentScripts
    ∧ (World.run env s ((fs ++ [f]).map Op.openFilename)).recentScripts.head? = some f
    ∧ (World.run env s ((fs ++ [f]).map Op.openFilename)).recentScripts.tail
        = ((World.run env s (fs.map Op.openFilename)).recentScripts.filter
            (fun x => !QString.eq x f)).take 4
    ∧ (World.run env s ((fs ++ [f]).map Op.openFilename)).recentScripts
        = (mostRecentFirst ((fs ++ [f]).reverse ++ s.recentScripts)).take 5 := by
  have h := (run_opens_recentScripts env s (fs ++ [f]) hptr hnodup).2
  have hne : ¬ (fs ++ [f] = []) := by simp
  rw [if_neg hne] at h
  have hprev := run_opens_recentScripts env s fs hptr hnodup
  have hstep := openFilename_recentScripts f (World.run env s (fs.map Op.openFilename)) hprev.1
  have hlast : World.run env s ((fs ++ [f]).map Op.openFilename)
      = TeamWidget.openFilename f (World.run env s (fs.map Op.openFilename)) := by
    rw [List.map_append, run_append]
    simp [World.run, World.step]
  refine ⟨?_, ?_, ?_, ?_, h⟩
  · rw [h]; simp [List.length_take]
  · rw [h]
    exact List.Pairwise.sublist (List.take_sublist _ _) (mostRecentFirst_noDuplicates _)
  · rw [h]; simp [mostRecentFirst]
  · rw [hlast, hstep.1]; simp

/-- C1 at a concrete input: six opens, one of them repeated, on an empty list. -/
theorem C1_open_recent_scripts_witness :
    (World.run noFiles
        (World.run noFiles (World.fresh .BLUE false true false emptySettings) [.setRecentScripts (some [])])
        (([some "a", some "b", some "c", some "a", some "d", some "e"] ++ [some "f"]).map
          Op.openFilename)).recentScripts
      = [some "f", some "e", some "d", some "a", some "c"] :=
  (C1_open_recent_scripts noFiles
    (World.run noFiles (World.fresh .BLUE false true false emptySettings) [.setRecentScripts (some [])])
    [some "a", some "b", some "c", some "a", some "d", some "e"] (some "f")
    (by decide) (by simp [NoDuplicates, World.run, World.step, TeamWidget.setRecentScripts])).2.2.2.2.trans
    (by decide)


theorem autoReloadTrue_only (m : SubMessage) (strategy : CommandStrategy) :
    (Command.only m strategy).AutoReloadTrue ↔ ∀ v : Bool, strategy.auto_reload = some v → v = true := by
  constructor
  · intro h
    refine h m strategy ?_
    cases m <;> rfl
  · intro h m2 st2 hst
    cases m <;> cases m2 <;> simp [Command.only, Command.strategyAt] at hst <;>
      (subst hst; exact h)

theorem tournamentInv_frame {s t : World} (h : TournamentInv s)
    (e1 : t.widget.m_isTournamentMode = s.widget.m_isTournamentMode)
    (e2 : t.widget.m_reloadAction = s.widget.m_reloadAction)
    (e3 : t.widget.m_userAutoReload = s.widget.m_userAutoReload)
    (e4 : t.sent = s.sent) : TournamentInv t := by
  unfold TournamentInv at *
  rw [e1, e2, e3, e4]
  exact h

theorem tournamentInv_emit {s : World} (h : TournamentInv s) {c : Command}
    (hc : c.AutoReloadTrue) : TournamentInv (s.emit c) := by
  obtain ⟨h1, h2, h3, h4, h5⟩ := h
  refine ⟨h1, h2, h3, h4, ?_⟩
  intro d hd
  simp only [World.emit, List.mem_append, List.mem_singleton] at hd
  rcases hd with hd | hd
  · exact h5 d hd
  · rw [hd]; exact hc

theorem tournamentInv_emit_strategy {s : World} (h : TournamentInv s)
    (f : CommandStrategy → CommandStrategy) (hf : (f {}).auto_reload = none) :
    TournamentInv (s.emit (TeamWidget.commandStrategyFromType s.widget.m_type {} f)) := by
  apply tournamentInv_emit h
  rw [commandStrategyFromType_empty, autoReloadTrue_only]
  intro v hv
  rw [hf] at hv
  cases hv

theorem tournamentInv_sendAutoReload {s : World} (h : TournamentInv s) :
    TournamentInv (TeamWidget.sendAutoReload s) := by
  have h3 := h.2.2.1
  have h2 := h.2.1
  simp only [TeamWidget.sendAutoReload, h3, Bool.false_eq_true, if_false]
  apply tournamentInv_emit h
  rw [commandStrategyFromType_empty, autoReloadTrue_only]
  intro v hv
  simp only [h2, Option.some.injEq] at hv
  exact hv.symm

theorem tournamentInv_sendFilenameAndEntrypoint {s : World} (h : TournamentInv s) (e : QString) :
    TournamentInv (TeamWidget.sendFilenameAndEntrypoint e s) := by
  unfold TeamWidget.sendFilenameAndEntrypoint
  exact tournamentInv_emit_strategy (tournamentInv_frame h rfl rfl rfl rfl) _ rfl

theorem tournamentInv_sendAutomaticEntrypoints {s : World} (h : TournamentInv s) :
    TournamentInv (TeamWidget.sendAutomaticEntrypoints s) := by
  unfold TeamWidget.sendAutomaticEntrypoints
  split
  · exact h
  · exact tournamentInv_emit_strategy h _ rfl

theorem tournamentInv_openFilename {s : World} (h : TournamentInv s) (f : QString) :
    TournamentInv (TeamWidget.openFilename f s) := by
  unfold TeamWidget.openFilename
  refine tournamentInv_emit_strategy (tournamentInv_frame h ?_ ?_ ?_ ?_) _ rfl <;>
    (dsimp only; split <;> rfl)

theorem tournamentInv_closeScript {s : World} (h : TournamentInv s) :
    TournamentInv (TeamWidget.closeScript s) :=
  tournamentInv_emit_strategy h _ rfl

theorem tournamentInv_saveConfig {s : World} (h : TournamentInv s) :
    TournamentInv (TeamWidget.saveConfig s) :=
  tournamentInv_frame h rfl rfl rfl rfl

theorem tournamentInv_performanceAction_setChecked {s : World} (h : TournamentInv s) (b : Bool) :
    TournamentInv (TeamWidget.performanceAction_setChecked b s) := by
  unfold TeamWidget.performanceAction_setChecked
  split
  · exact h
  · exact tournamentInv_emit_strategy (tournamentInv_frame h rfl rfl rfl rfl) _ rfl

theorem tournamentInv_btnEnableDebug_setChecked {s : World} (h : TournamentInv s) (b : Bool) :
    TournamentInv (TeamWidget.btnEnableDebug_setChecked b s) := by
  unfold TeamWidget.btnEnableDebug_setChecked
  split
  · exact h
  · exact tournamentInv_emit_strategy (tournamentInv_frame h rfl rfl rfl rfl) _ rfl

theorem tournamentInv_loadFilename {s : World} (h : TournamentInv s) (env : Env)
    (prev : QString) : TournamentInv (TeamWidget.loadFilename env prev s) := by
  unfold TeamWidget.loadFilename
  split
  · exact tournamentInv_frame h rfl rfl rfl rfl
  · split
    · split
      · split
        · exact tournamentInv_frame h rfl rfl rfl rfl
        · exact h
      · exact h
    · exact h

theorem tournamentInv_loadAutoReload {s : World} (h : TournamentInv s) (q : QSettings) :
    TournamentInv (TeamWidget.loadAutoReload q s) := by
  unfold TeamWidget.loadAutoReload
  rw [if_neg (by simp [h.1])]
  exact h

theorem tournamentInv_loadEnableDebug {s : World} (h : TournamentInv s) (q : QSettings) :
    TournamentInv (TeamWidget.loadEnableDebug q s) := by
  unfold TeamWidget.loadEnableDebug
  split
  · exact tournamentInv_btnEnableDebug_setChecked h _
  · exact h

theorem tournamentInv_loadSend {s : World} (h : TournamentInv s) (env : Env) :
    TournamentInv (TeamWidget.loadSend env s) := by
  unfold TeamWidget.loadSend
  split
  · exact tournamentInv_sendAutomaticEntrypoints (tournamentInv_sendFilenameAndEntrypoint h _)
  · exact h

theorem tournamentInv_load {s : World} (h : TournamentInv s) (env : Env) :
    TournamentInv (TeamWidget.load env s) := by
  rw [load_eq_stages]
  apply tournamentInv_loadSend
  refine tournamentInv_frame (s := TeamWidget.loadEnableDebug _ _) ?_ rfl rfl rfl rfl
  apply tournamentInv_loadEnableDebug
  apply tournamentInv_performanceAction_setChecked
  apply tournamentInv_loadAutoReload
  refine tournamentInv_frame (s := TeamWidget.loadFilename _ _ _) ?_ rfl rfl rfl rfl
  exact tournamentInv_loadFilename h env _

theorem tournamentInv_enableContent {s : World} (h : TournamentInv s) (enable : Bool) :
    TournamentInv (TeamWidget.enableContent enable s) := by
  have h1 := h.1
  unfold TeamWidget.enableContent
  refine tournamentInv_frame h ?_ ?_ ?_ ?_ <;> simp [h1]

theorem tournamentInv_forceAutoReload {s : World} (h : TournamentInv s) (force : Bool) :
    TournamentInv (TeamWidget.forceAutoReload force s) := by
  unfold TeamWidget.forceAutoReload
  rw [if_neg (by simp [h.1])]
  exact tournamentInv_sendAutoReload h

theorem tournamentInv_handleStatus {s : World} (h : TournamentInv s) (status : Status) :
    TournamentInv (TeamWidget.handleStatus status s) := by
  unfold TeamWidget.handleStatus
  split
  · exact h
  · dsimp only
    split
    · exact h
    · refine tournamentInv_frame h ?_ ?_ ?_ ?_ <;>
        simp only [TeamWidget.updateStyleSheet] <;> split <;> rfl

theorem tournamentInv_showAutomaticEntrypointDialog {s : World} (h : TournamentInv s)
    (env : Env) (accepted : Bool) (sel : AutomaticEntrypointsStorage) :
    TournamentInv (TeamWidget.showAutomaticEntrypointDialog env accepted sel s) := by
  unfold TeamWidget.showAutomaticEntrypointDialog
  split
  · exact h
  · split
    · exact h
    · exact tournamentInv_sendAutomaticEntrypoints (tournamentInv_frame h rfl rfl rfl rfl)

theorem tournamentInv_setRecentScripts {s : World} (h : TournamentInv s)
    (recent : Option (List QString)) :
    TournamentInv (TeamWidget.setRecentScripts recent s) := by
  cases recent <;> exact tournamentInv_frame h rfl rfl rfl rfl

theorem tournamentInv_userToggle {s : World} (h : TournamentInv s) :
    TournamentInv (TeamWidget.userToggleReloadAction s)
    ∧ TournamentInv (TeamWidget.userToggleEnableDebug s)
    ∧ TournamentInv (TeamWidget.userTogglePerformanceAction s) := by
  refine ⟨?_, ?_, ?_⟩
  · unfold TeamWidget.userToggleReloadAction
    rw [if_neg (by simp [h.2.2.1])]
    exact h
  · unfold TeamWidget.userToggleEnableDebug
    split
    · exact tournamentInv_btnEnableDebug_setChecked h _
    · exact h
  · unfold TeamWidget.userTogglePerformanceAction
    split
    · exact tournamentInv_performanceAction_setChecked h _
    · exact h

theorem step_tournamentInv (env : Env) (s : World) (op : Op) (h : TournamentInv s) :
    TournamentInv (World.step env s op) := by
  cases op with
  | load => exact tournamentInv_load h env
  | saveConfig => exact tournamentInv_saveConfig h
  | shutdown => exact tournamentInv_closeScript (tournamentInv_saveConfig h)
  | enableContent enable => exact tournamentInv_enableContent h enable
  | setRecentScripts recent => exact tournamentInv_setRecentScripts h recent
  | forceAutoReload force => exact tournamentInv_forceAutoReload h force
  | handleStatus status => exact tournamentInv_handleStatus h status
  | enableDebugger enable => exact tournamentInv_frame h rfl rfl rfl rfl
  | showOpenDialog filename =>
    simp only [World.step, TeamWidget.showOpenDialog]
    split
    · exact h
    · exact tournamentInv_openFilename h filename
  | showAutomaticEntrypointDialog accepted sel =>
    exact tournamentInv_showAutomaticEntrypointDialog h env accepted sel
  | openSender filename =>
    simp only [World.step, TeamWidget.openSender]
    split
    · exact h
    · exact tournamentInv_openFilename h filename
  | openFilename filename => exact tournamentInv_openFilename h filename
  | closeScript => exact tournamentInv_closeScript h
  | sendFilenameAndEntrypoint e => exact tournamentInv_sendFilenameAndEntrypoint h e
  | sendReload => exact tournamentInv_emit_strategy h _ rfl
  | sendAutoReload => exact tournamentInv_sendAutoReload h
  | sendEnableDebug enable => exact tournamentInv_emit_strategy h _ rfl
  | sendTriggerDebug => exact tournamentInv_emit_strategy h _ rfl
  | sendPerformanceDebug enable => exact tournamentInv_emit_strategy h _ rfl
  | sendAutomaticEntrypoints => exact tournamentInv_sendAutomaticEntrypoints h
  | updateStyleSheet => exact tournamentInv_frame h rfl rfl rfl rfl
  | userToggleReloadAction => exact (tournamentInv_userToggle h).1
  | userToggleEnableDebug => exact (tournamentInv_userToggle h).2.1
  | userTogglePerformanceAction => exact (tournamentInv_userToggle h).2.2

theorem run_tournamentInv (env : Env) (ops : List Op) (s : World) (h : TournamentInv s) :
    TournamentInv (World.run env s ops) := by
  induction ops generalizing s with
  | nil => exact h
  | cons op ops ih => exact ih _ (step_tournamentInv env s op h)

theorem fresh_tournamentInv (type : StrategyType) (contentEnabled useDarkColors : Bool)
    (settings : SettingsStore) :
    TournamentInv (World.fresh type true contentEnabled useDarkColors settings) := by
  refine ⟨?_, ?_, ?_, ?_, ?_⟩ <;>
    simp [World.fresh, TeamWidget.init, TeamWidget.construct, TeamWidget.updateStyleSheet,
      TeamWidget.reloadAction_setChecked, TeamWidget.sendAutoReload, World.emit,
      commandStrategyFromType_empty, autoReloadTrue_only]


theorem saveConfig_store (s : World) :
    (TeamWidget.saveConfig s).settings [TeamWidget.teamTypeName s.widget.m_type, "Script"]
        = some (.string s.widget.m_filename)
    ∧ (TeamWidget.saveConfig s).settings [TeamWidget.teamTypeName s.widget.m_type, "EntryPoint"]
        = some (.string s.widget.m_entryPoint)
    ∧ (TeamWidget.saveConfig s).settings [TeamWidget.teamTypeName s.widget.m_type, "AutoReload"]
        = some (.bool s.widget.m_userAutoReload)
    ∧ (TeamWidget.saveConfig s).settings [TeamWidget.teamTypeName s.widget.m_type, "EnableDebug"]
        = some (.bool s.widget.m_btnEnableDebug.checked)
    ∧ (TeamWidget.saveConfig s).settings [TeamWidget.teamTypeName s.widget.m_type, "PerformanceMode"]
        = some (.bool s.widget.m_performanceAction.checked)
    ∧ (TeamWidget.saveConfig s).settings
          [TeamWidget.teamTypeName s.widget.m_type, "AutomaticEntrypoints", "game"]
        = s.widget.m_automaticEntrypoints.forGame.map (fun e => .string (some e))
    ∧ (TeamWidget.saveConfig s).settings
          [TeamWidget.teamTypeName s.widget.m_type, "AutomaticEntrypoints", "break"]
        = s.widget.m_automaticEntrypoints.forBreak.map (fun e => .string (some e))
    ∧ (TeamWidget.saveConfig s).settings
          [TeamWidget.teamTypeName s.widget.m_type, "AutomaticEntrypoints", "postgame"]
        = s.widget.m_automaticEntrypoints.forPostgame.map (fun e => .string (some e)) := by
  rcases hg : s.widget.m_automaticEntrypoints.forGame with _ | g <;>
  rcases hb : s.widget.m_automaticEntrypoints.forBreak with _ | b <;>
  rcases hp : s.widget.m_automaticEntrypoints.forPostgame with _ | p <;>
    simp [TeamWidget.saveConfig, QSettings.beginGroup, QSettings.endGroup, QSettings.setValue,
      QSettings.remove, QString.isNull, hg, hb, hp]


theorem roleInv_frame {type : StrategyType} {mode : Bool} {s t : World}
    (h : RoleInv type mode s)
    (e1 : t.widget.m_type = s.widget.m_type)
    (e2 : t.widget.m_isTournamentMode = s.widget.m_isTournamentMode)
    (e3 : t.widget.m_btnEnableDebug = s.widget.m_btnEnableDebug) : RoleInv type mode t := by
  unfold RoleInv at *
  rw [e1, e2, e3]
  exact h

theorem roleInv_sendAutoReload {type : StrategyType} {mode : Bool} {s : World}
    (h : RoleInv type mode s) : RoleInv type mode (TeamWidget.sendAutoReload s) := by
  unfold TeamWidget.sendAutoReload
  refine roleInv_frame h ?_ ?_ ?_ <;> (dsimp only [World.emit]; split <;> rfl)

theorem roleInv_reloadAction_setChecked {type : StrategyType} {mode : Bool} {s : World}
    (h : RoleInv type mode s) (b : Bool) :
    RoleInv type mode (TeamWidget.reloadAction_setChecked b s) := by
  unfold TeamWidget.reloadAction_setChecked
  split
  · exact h
  · exact roleInv_sendAutoReload (roleInv_frame h rfl rfl rfl)

theorem roleInv_performanceAction_setChecked {type : StrategyType} {mode : Bool} {s : World}
    (h : RoleInv type mode s) (b : Bool) :
    RoleInv type mode (TeamWidget.performanceAction_setChecked b s) := by
  unfold TeamWidget.performanceAction_setChecked
  split
  · exact h
  · exact roleInv_frame h rfl rfl rfl

theorem roleInv_sendAutomaticEntrypoints {type : StrategyType} {mode : Bool} {s : World}
    (h : RoleInv type mode s) : RoleInv type mode (TeamWidget.sendAutomaticEntrypoints s) := by
  unfold TeamWidget.sendAutomaticEntrypoints
  split
  · exact h
  · exact roleInv_frame h rfl rfl rfl

theorem roleInv_openFilename {type : StrategyType} {mode : Bool} {s : World}
    (h : RoleInv type mode s) (f : QString) :
    RoleInv type mode (TeamWidget.openFilename f s) := by
  unfold TeamWidget.openFilename
  refine roleInv_frame h ?_ ?_ ?_ <;> (dsimp only [World.emit]; split <;> rfl)

theorem roleInv_loadFilename {type : StrategyType} {mode : Bool} {s : World}
    (h : RoleInv type mode s) (env : Env) (prev : QString) :
    RoleInv type mode (TeamWidget.loadFilename env prev s) := by
  unfold TeamWidget.loadFilename
  split
  · exact roleInv_frame h rfl rfl rfl
  · split
    · split
      · split
        · exact roleInv_frame h rfl rfl rfl
        · exact h
      · exact h
    · exact h

theorem roleInv_loadEnableDebug {type : StrategyType} {mode : Bool} {s : World}
    (h : RoleInv type mode s) (q : QSettings) :
    RoleInv type mode (TeamWidget.loadEnableDebug q s) := by
  unfold TeamWidget.loadEnableDebug
  split
  · rename_i hne
    unfold TeamWidget.btnEnableDebug_setChecked
    split
    · exact h
    · refine ⟨h.1, h.2.1, ?_⟩
      intro ht
      rw [h.1] at hne
      exact absurd ht hne
  · exact h

theorem roleInv_load {type : StrategyType} {mode : Bool} {s : World}
    (h : RoleInv type mode s) (env : Env) : RoleInv type mode (TeamWidget.load env s) := by
  rw [load_eq_stages]
  unfold TeamWidget.loadSend
  have h6 : RoleInv type mode (TeamWidget.loadAutomaticEntrypoints
      ((TeamWidget.roleSettings s).beginGroup "AutomaticEntrypoints")
      (TeamWidget.loadEnableDebug (TeamWidget.roleSettings s)
        (TeamWidget.loadPerformanceMode (TeamWidget.roleSettings s)
          (TeamWidget.loadAutoReload (TeamWidget.roleSettings s)
            (TeamWidget.loadEntryPoint (TeamWidget.roleSettings s)
              (TeamWidget.loadFilename env
                ((TeamWidget.roleSettings s).value "Script" .invalid).toString s)))))) := by
    refine roleInv_frame (s := TeamWidget.loadEnableDebug _ _) ?_ rfl rfl rfl
    apply roleInv_loadEnableDebug
    apply roleInv_performanceAction_setChecked
    unfold TeamWidget.loadAutoReload
    have h2 : RoleInv type mode (TeamWidget.loadEntryPoint (TeamWidget.roleSettings s)
        (TeamWidget.loadFilename env ((TeamWidget.roleSettings s).value "Script" .invalid).toString s)) :=
      roleInv_frame (roleInv_loadFilename h env _) rfl rfl rfl
    split
    · exact roleInv_reloadAction_setChecked h2 _
    · exact h2
  split
  · exact roleInv_sendAutomaticEntrypoints (roleInv_frame h6 rfl rfl rfl)
  · exact h6

theorem roleInv_enableContent {type : StrategyType} {mode : Bool} {s : World}
    (h : RoleInv type mode s) (enable : Bool) :
    RoleInv type mode (TeamWidget.enableContent enable s) := by
  obtain ⟨h1, h2, h3⟩ := h
  unfold TeamWidget.enableContent
  refine ⟨?_, ?_, ?_⟩
  · dsimp only; split <;> exact h1
  · dsimp only; split <;> exact h2
  · intro ht
    have := h3 ht
    rw [ht] at h1
    dsimp only
    split <;> simp [h1, this]

theorem roleInv_forceAutoReload {type : StrategyType} {mode : Bool} {s : World}
    (h : RoleInv type mode s) (force : Bool) :
    RoleInv type mode (TeamWidget.forceAutoReload force s) := by
  unfold TeamWidget.forceAutoReload
  split
  · dsimp only
    split
    · apply roleInv_reloadAction_setChecked
      exact roleInv_frame h rfl rfl rfl
    · apply roleInv_reloadAction_setChecked
      exact roleInv_frame h rfl rfl rfl
  · exact roleInv_sendAutoReload h

theorem roleInv_handleStatus {type : StrategyType} {mode : Bool} {s : World}
    (h : RoleInv type mode s) (status : Status) :
    RoleInv type mode (TeamWidget.handleStatus status s) := by
  unfold TeamWidget.handleStatus
  split
  · exact h
  · dsimp only
    split
    · exact h
    · refine roleInv_frame h ?_ ?_ ?_ <;>
        simp only [TeamWidget.updateStyleSheet] <;> split <;> rfl

theorem roleInv_showAutomaticEntrypointDialog {type : StrategyType} {mode : Bool} {s : World}
    (h : RoleInv type mode s) (env : Env) (accepted : Bool) (sel : AutomaticEntrypointsStorage) :
    RoleInv type mode (TeamWidget.showAutomaticEntrypointDialog env accepted sel s) := by
  unfold TeamWidget.showAutomaticEntrypointDialog
  split
  · exact h
  · split
    · exact h
    · exact roleInv_sendAutomaticEntrypoints (roleInv_frame h rfl rfl rfl)

theorem roleInv_userToggle {type : StrategyType} {mode : Bool} {s : World}
    (h : RoleInv type mode s) :
    RoleInv type mode (TeamWidget.userToggleReloadAction s)
    ∧ RoleInv type mode (TeamWidget.userToggleEnableDebug s)
    ∧ RoleInv type mode (TeamWidget.userTogglePerformanceAction s) := by
  refine ⟨?_, ?_, ?_⟩
  · unfold TeamWidget.userToggleReloadAction
    split
    · exact roleInv_reloadAction_setChecked h _
    · exact h
  · unfold TeamWidget.userToggleEnableDebug
    split
    · rename_i hen
      unfold TeamWidget.btnEnableDebug_setChecked
      split
      · exact h
      · refine ⟨h.1, h.2.1, ?_⟩
        intro ht
        rw [(h.2.2 ht).2] at hen
        exact absurd hen Bool.false_ne_true
    · exact h
  · unfold TeamWidget.userTogglePerformanceAction
    split
    · exact roleInv_performanceAction_setChecked h _
    · exact h

theorem step_roleInv {type : StrategyType} {mode : Bool} (env : Env) (s : World) (op : Op)
    (h : RoleInv type mode s) : RoleInv type mode (World.step env s op) := by
  cases op with
  | load => exact roleInv_load h env
  | saveConfig => exact roleInv_frame h rfl rfl rfl
  | shutdown => exact roleInv_frame h rfl rfl rfl
  | enableContent enable => exact roleInv_enableContent h enable
  | setRecentScripts recent => cases recent <;> exact roleInv_frame h rfl rfl rfl
  | forceAutoReload force => exact roleInv_forceAutoReload h force
  | handleStatus status => exact roleInv_handleStatus h status
  | enableDebugger enable => exact roleInv_frame h rfl rfl rfl
  | showOpenDialog filename =>
    simp only [World.step, TeamWidget.showOpenDialog]
    split
    · exact h
    · exact roleInv_openFilename h filename
  | showAutomaticEntrypointDialog accepted sel =>
    exact roleInv_showAutomaticEntrypointDialog h env accepted sel
  | openSender filename =>
    simp only [World.step, TeamWidget.openSender]
    split
    · exact h
    · exact roleInv_openFilename h filename
  | openFilename filename => exact roleInv_openFilename h filename
  | closeScript => exact roleInv_frame h rfl rfl rfl
  | sendFilenameAndEntrypoint e => exact roleInv_frame h rfl rfl rfl
  | sendReload => exact roleInv_frame h rfl rfl rfl
  | sendAutoReload => exact roleInv_sendAutoReload h
  | sendEnableDebug enable => exact roleInv_frame h rfl rfl rfl
  | sendTriggerDebug => exact roleInv_frame h rfl rfl rfl
  | sendPerformanceDebug enable => exact roleInv_frame h rfl rfl rfl
  | sendAutomaticEntrypoints => exact roleInv_sendAutomaticEntrypoints h
  | updateStyleSheet => exact roleInv_frame h rfl rfl rfl
  | userToggleReloadAction => exact (roleInv_userToggle h).1
  | userToggleEnableDebug => exact (roleInv_userToggle h).2.1
  | userTogglePerformanceAction => exact (roleInv_userToggle h).2.2

theorem run_roleInv {type : StrategyType} {mode : Bool} (env : Env) (ops : List Op) (s : World)
    (h : RoleInv type mode s) : RoleInv type mode (World.run env s ops) := by
  induction ops generalizing s with
  | nil => exact h
  | cons op ops ih => exact ih _ (step_roleInv env s op h)

theorem fresh_roleInv (type : StrategyType) (mode contentEnabled useDarkColors : Bool)
    (settings : SettingsStore) :
    RoleInv type mode (World.fresh type mode contentEnabled useDarkColors settings) := by
  cases mode <;> cases type <;>
    simp [RoleInv, World.fresh, TeamWidget.init, TeamWidget.construct, TeamWidget.updateStyleSheet,
      TeamWidget.reloadAction_setChecked, TeamWidget.sendAutoReload, World.emit]


theorem persisted_fresh (type : StrategyType) (mode ce dark : Bool) (st : SettingsStore) :
    (World.fresh type mode ce dark st).persisted =
      { m_type := type, m_isTournamentMode := mode, m_userAutoReload := false,
        m_filename := none, m_entryPoint := none, m_automaticEntrypoints := {},
        m_recentScripts := false, reloadEnabled := !mode, reloadChecked := mode,
        enableDebugChecked := decide (type = .AUTOREF), performanceChecked := true }
    ∧ (World.fresh type mode ce dark st).settings = st := by
  cases mode <;> cases type <;>
    simp [World.persisted, World.fresh, TeamWidget.init, TeamWidget.construct,
      TeamWidget.updateStyleSheet, TeamWidget.reloadAction_setChecked, TeamWidget.sendAutoReload,
      World.emit]

theorem persisted_loadFilename (env : Env) (prev : QString) (s : World)
    (h : s.widget.m_recentScripts = false) :
    (TeamWidget.loadFilename env prev s).persisted =
      { s.persisted with
        m_filename := if QString.eq prev (some "") then s.persisted.m_filename else prev } := by
  unfold TeamWidget.loadFilename
  by_cases hp : QString.eq prev (some "") = true <;> simp [hp, h, World.persisted]

theorem persisted_reloadAction_setChecked (b : Bool) (s : World) :
    (TeamWidget.reloadAction_setChecked b s).persisted =
      if s.persisted.reloadChecked = b then s.persisted
      else { s.persisted with
        reloadChecked := b
        m_userAutoReload := if s.persisted.reloadEnabled then b else s.persisted.m_userAutoReload } := by
  unfold TeamWidget.reloadAction_setChecked TeamWidget.sendAutoReload
  by_cases hc : s.widget.m_reloadAction.checked = b <;>
    by_cases he : s.widget.m_reloadAction.enabled = true <;>
    simp [hc, he, World.persisted, World.emit]

theorem persisted_performanceAction_setChecked (b : Bool) (s : World) :
    (TeamWidget.performanceAction_setChecked b s).persisted =
      { s.persisted with performanceChecked := b } := by
  unfold TeamWidget.performanceAction_setChecked
  by_cases hc : s.widget.m_performanceAction.checked = b <;>
    simp [hc, World.persisted, World.emit, TeamWidget.sendPerformanceDebug]

theorem persisted_btnEnableDebug_setChecked (b : Bool) (s : World) :
    (TeamWidget.btnEnableDebug_setChecked b s).persisted =
      { s.persisted with enableDebugChecked := b } := by
  unfold TeamWidget.btnEnableDebug_setChecked
  by_cases hc : s.widget.m_btnEnableDebug.checked = b <;>
    simp [hc, World.persisted, World.emit, TeamWidget.sendEnableDebug]

theorem persisted_loadSend (env : Env) (s : World) :
    (TeamWidget.loadSend env s).persisted = s.persisted := by
  unfold TeamWidget.loadSend TeamWidget.sendAutomaticEntrypoints TeamWidget.sendFilenameAndEntrypoint
  by_cases hf : env.fileExists s.widget.m_filename = true <;>
    by_cases ha : s.widget.m_automaticEntrypoints.allNull = true <;>
    simp [hf, ha, World.persisted, World.emit]

theorem persisted_load (env : Env) (s : World) (h : s.widget.m_recentScripts = false) :
    (TeamWidget.load env s).persisted =
      { m_type := s.widget.m_type
        m_isTournamentMode := s.widget.m_isTournamentMode
        m_userAutoReload :=
          if s.widget.m_isTournamentMode then s.widget.m_userAutoReload
          else if s.widget.m_reloadAction.checked
              = ((TeamWidget.roleSettings s).value "AutoReload" .invalid).toBool
            then s.widget.m_userAutoReload
          else if s.widget.m_reloadAction.enabled
            then ((TeamWidget.roleSettings s).value "AutoReload" .invalid).toBool
          else s.widget.m_userAutoReload
        m_filename :=
          if QString.eq ((TeamWidget.roleSettings s).value "Script" .invalid).toString (some "")
            then s.widget.m_filename
          else ((TeamWidget.roleSettings s).value "Script" .invalid).toString
        m_entryPoint := ((TeamWidget.roleSettings s).value "EntryPoint" .invalid).toString
        m_automaticEntrypoints :=
          { forGame := (((TeamWidget.roleSettings s).beginGroup "AutomaticEntrypoints").value
              "game" .invalid).toString
            forBreak := (((TeamWidget.roleSettings s).beginGroup "AutomaticEntrypoints").value
              "break" .invalid).toString
            forPostgame := (((TeamWidget.roleSettings s).beginGroup "AutomaticEntrypoints").value
              "postgame" .invalid).toString }
        m_recentScripts := false
        reloadEnabled := s.widget.m_reloadAction.enabled
        reloadChecked :=
          if s.widget.m_isTournamentMode then s.widget.m_reloadAction.checked
          else ((TeamWidget.roleSettings s).value "AutoReload" .invalid).toBool
        enableDebugChecked :=
          if s.widget.m_type = .AUTOREF then s.widget.m_btnEnableDebug.checked
          else ((TeamWidget.roleSettings s).value "EnableDebug" (.bool false)).toBool
        performanceChecked :=
          ((TeamWidget.roleSettings s).value "PerformanceMode" (.bool true)).toBool } := by
  rw [load_eq_stages, persisted_loadSend]
  generalize TeamWidget.roleSettings s = q
  have e1 := persisted_loadFilename env (q.value "Script" .invalid).toString s h
  generalize TeamWidget.loadFilename env (q.value "Script" .invalid).toString s = s1 at *
  have e2 : (TeamWidget.loadEntryPoint q s1).persisted
      = { s1.persisted with m_entryPoint := (q.value "EntryPoint" .invalid).toString } := rfl
  generalize TeamWidget.loadEntryPoint q s1 = s2 at *
  have e3 : (TeamWidget.loadAutoReload q s2).persisted
      = if s2.persisted.m_isTournamentMode then s2.persisted
        else if s2.persisted.reloadChecked = (q.value "AutoReload" .invalid).toBool then s2.persisted
        else { s2.persisted with
          reloadChecked := (q.value "AutoReload" .invalid).toBool
          m_userAutoReload := if s2.persisted.reloadEnabled then (q.value "AutoReload" .invalid).toBool
            else s2.persisted.m_userAutoReload } := by
    unfold TeamWidget.loadAutoReload
    by_cases hm : s2.widget.m_isTournamentMode = true
    · simp [hm, World.persisted]
    · have hm2 : ¬ (s2.persisted.m_isTournamentMode = true) := hm
      have hm3 : (!s2.widget.m_isTournamentMode) = true := by simpa using hm
      rw [if_neg hm2, if_pos hm3]
      exact persisted_reloadAction_setChecked _ s2
  generalize TeamWidget.loadAutoReload q s2 = s3 at *
  have e4 := persisted_performanceAction_setChecked
    (q.value "PerformanceMode" (.bool true)).toBool s3
  change (TeamWidget.loadPerformanceMode q s3).persisted = _ at e4
  generalize TeamWidget.loadPerformanceMode q s3 = s4 at *
  have e5 : (TeamWidget.loadEnableDebug q s4).persisted
      = if s4.persisted.m_type = .AUTOREF then s4.persisted
        else { s4.persisted with
          enableDebugChecked := (q.value "EnableDebug" (.bool false)).toBool } := by
    unfold TeamWidget.loadEnableDebug
    by_cases ht : s4.widget.m_type = .AUTOREF
    · simp [ht, World.persisted]
    · have ht2 : ¬ s4.persisted.m_type = .AUTOREF := by simpa [World.persisted] using ht
      rw [if_pos ht, if_neg ht2]
      exact persisted_btnEnableDebug_setChecked _ s4
  generalize TeamWidget.loadEnableDebug q s4 = s5 at *
  have e6 : (TeamWidget.loadAutomaticEntrypoints (q.beginGroup "AutomaticEntrypoints") s5).persisted
      = { s5.persisted with m_automaticEntrypoints :=
          { forGame := ((q.beginGroup "AutomaticEntrypoints").value "game" .invalid).toString
            forBreak := ((q.beginGroup "AutomaticEntrypoints").value "break" .invalid).toString
            forPostgame := ((q.beginGroup "AutomaticEntrypoints").value "postgame" .invalid).toString } } := rfl
  rw [e6, e5, e4, e3, e2, e1]
  simp only [World.persisted, h]
  cases s.widget.m_isTournamentMode <;>
    by_cases ht : s.widget.m_type = .AUTOREF <;>
    by_cases hc : s.widget.m_reloadAction.checked = (q.value "AutoReload" .invalid).toBool <;>
    simp [ht, hc]


theorem savedThenLoaded_persisted (env : Env) (ce dark : Bool) (s : World) :
    (savedThenLoaded env ce dark s).persisted =
      { m_type := s.widget.m_type
        m_isTournamentMode := s.widget.m_isTournamentMode
        m_userAutoReload := if s.widget.m_isTournamentMode then false else s.widget.m_userAutoReload
        m_filename := if QString.eq s.widget.m_filename (some "") then none else s.widget.m_filename
        m_entryPoint := s.widget.m_entryPoint
        m_automaticEntrypoints := s.widget.m_automaticEntrypoints
        m_recentScripts := false
        reloadEnabled := !s.widget.m_isTournamentMode
        reloadChecked := if s.widget.m_isTournamentMode then true else s.widget.m_userAutoReload
        enableDebugChecked :=
          if s.widget.m_type = .AUTOREF then true else s.widget.m_btnEnableDebug.checked
        performanceChecked := s.widget.m_performanceAction.checked } := by
  unfold savedThenLoaded
  obtain ⟨hF, hFs⟩ := persisted_fresh s.widget.m_type s.widget.m_isTournamentMode ce dark
    (TeamWidget.saveConfig s).settings
  generalize World.fresh s.widget.m_type s.widget.m_isTournamentMode ce dark
    (TeamWidget.saveConfig s).settings = F at *
  have f1 : F.widget.m_type = s.widget.m_type := congrArg Persisted.m_type hF
  have f2 : F.widget.m_isTournamentMode = s.widget.m_isTournamentMode :=
    congrArg Persisted.m_isTournamentMode hF
  have f3 : F.widget.m_userAutoReload = false := congrArg Persisted.m_userAutoReload hF
  have f4 : F.widget.m_filename = none := congrArg Persisted.m_filename hF
  have f5 : F.widget.m_recentScripts = false := congrArg Persisted.m_recentScripts hF
  have f6 : F.widget.m_reloadAction.enabled = !s.widget.m_isTournamentMode :=
    congrArg Persisted.reloadEnabled hF
  have f7 : F.widget.m_reloadAction.checked = s.widget.m_isTournamentMode :=
    congrArg Persisted.reloadChecked hF
  have f8 : F.widget.m_btnEnableDebug.checked = decide (s.widget.m_type = .AUTOREF) :=
    congrArg Persisted.enableDebugChecked hF
  obtain ⟨k1, k2, k3, k4, k5, k6, k7, k8⟩ := saveConfig_store s
  have v1 : ((TeamWidget.roleSettings F).value "Script" .invalid).toString = s.widget.m_filename := by
    simp [TeamWidget.roleSettings, QSettings.beginGroup, QSettings.value, f1, hFs, k1,
      QVariant.toString]
  have v2 : ((TeamWidget.roleSettings F).value "EntryPoint" .invalid).toString = s.widget.m_entryPoint := by
    simp [TeamWidget.roleSettings, QSettings.beginGroup, QSettings.value, f1, hFs, k2,
      QVariant.toString]
  have v3 : ((TeamWidget.roleSettings F).value "AutoReload" .invalid).toBool = s.widget.m_userAutoReload := by
    simp [TeamWidget.roleSettings, QSettings.beginGroup, QSettings.value, f1, hFs, k3,
      QVariant.toBool]
  have v4 : ((TeamWidget.roleSettings F).value "EnableDebug" (.bool false)).toBool
      = s.widget.m_btnEnableDebug.checked := by
    simp [TeamWidget.roleSettings, QSettings.beginGroup, QSettings.value, f1, hFs, k4,
      QVariant.toBool]
  have v5 : ((TeamWidget.roleSettings F).value "PerformanceMode" (.bool true)).toBool
      = s.widget.m_performanceAction.checked := by
    simp [TeamWidget.roleSettings, QSettings.beginGroup, QSettings.value, f1, hFs, k5,
      QVariant.toBool]
  have v6 : (((TeamWidget.roleSettings F).beginGroup "AutomaticEntrypoints").value "game" .invalid).toString
      = s.widget.m_automaticEntrypoints.forGame := by
    simp only [TeamWidget.roleSettings, QSettings.beginGroup, QSettings.value, f1, hFs,
      List.nil_append, List.cons_append, k6]
    cases s.widget.m_automaticEntrypoints.forGame <;> rfl
  have v7 : (((TeamWidget.roleSettings F).beginGroup "AutomaticEntrypoints").value "break" .invalid).toString
      = s.widget.m_automaticEntrypoints.forBreak := by
    simp only [TeamWidget.roleSettings, QSettings.beginGroup, QSettings.value, f1, hFs,
      List.nil_append, List.cons_append, k7]
    cases s.widget.m_automaticEntrypoints.forBreak <;> rfl
  have v8 : (((TeamWidget.roleSettings F).beginGroup "AutomaticEntrypoints").value
      "postgame" .invalid).toString = s.widget.m_automaticEntrypoints.forPostgame := by
    simp only [TeamWidget.roleSettings, QSettings.beginGroup, QSettings.value, f1, hFs,
      List.nil_append, List.cons_append, k8]
    cases s.widget.m_automaticEntrypoints.forPostgame <;> rfl
  rw [persisted_load env F f5, v1, v2, v3, v4, v5, v6, v7, v8, f1, f2, f3, f4, f6, f7, f8]
  cases s.widget.m_isTournamentMode <;> cases s.widget.m_userAutoReload <;>
    by_cases ht : s.widget.m_type = .AUTOREF <;> simp [ht]

/-- C3: for every role, every mode and every state `s` that a controller reaches from
`init`, `saveConfig` followed by `load` on a fresh controller of the same role and mode
over the same settings store gives the same file name (equal as Qt strings, and the very
same value unless it was the empty non-null string), entry point, auto-reload preference,
debug-enabled flag, performance-mode flag and the same three automatic entry points; an
automatic entry point that was unset when saved has no settings key afterwards and is
unset after `load`. -/
theorem C3_saveConfig_then_load (env : Env) (type : StrategyType)
    (tournamentMode contentEnabled useDarkColors : Bool) (settings : SettingsStore)
    (ops : List Op) (s : World)
    (hs : s = World.run env
      (World.fresh type tournamentMode contentEnabled useDarkColors settings) ops)
    (env2 : Env) (contentEnabled2 useDarkColors2 : Bool) :
    QString.eq (savedThenLoaded env2 contentEnabled2 useDarkColors2 s).widget.m_filename
        s.widget.m_filename = true
    ∧ (s.widget.m_filename ≠ some "" →
        (savedThenLoaded env2 contentEnabled2 useDarkColors2 s).widget.m_filename
          = s.widget.m_filename)
    ∧ (savedThenLoaded env2 contentEnabled2 useDarkColors2 s).widget.m_entryPoint
        = s.widget.m_entryPoint
    ∧ (savedThenLoaded env2 contentEnabled2 useDarkColors2 s).widget.m_userAutoReload
        = s.widget.m_userAutoReload
    ∧ (savedThenLoaded env2 contentEnabled2 useDarkColors2 s).widget.m_btnEnableDebug.checked
        = s.widget.m_btnEnableDebug.checked
    ∧ (savedThenLoaded env2 contentEnabled2 useDarkColors2 s).widget.m_performanceAction.checked
        = s.widget.m_performanceAction.checked
    ∧ (savedThenLoaded env2 contentEnabled2 useDarkColors2 s).widget.m_automaticEntrypoints
        = s.widget.m_automaticEntrypoints
    ∧ (s.widget.m_automaticEntrypoints.forGame = none →
        (TeamWidget.saveConfig s).settings
            [TeamWidget.teamTypeName type, "AutomaticEntrypoints", "game"] = none
        ∧ (savedThenLoaded env2 contentEnabled2 useDarkColors2
            s).widget.m_automaticEntrypoints.forGame = none)
    ∧ (s.widget.m_automaticEntrypoints.forBreak = none →
        (TeamWidget.saveConfig s).settings
            [TeamWidget.teamTypeName type, "AutomaticEntrypoints", "break"] = none
        ∧ (savedThenLoaded env2 contentEnabled2 useDarkColors2
            s).widget.m_automaticEntrypoints.forBreak = none)
    ∧ (s.widget.m_automaticEntrypoints.forPostgame = none →
        (TeamWidget.saveConfig s).settings
            [TeamWidget.teamTypeName type, "AutomaticEntrypoints", "postgame"] = none
        ∧ (savedThenLoaded env2 contentEnabled2 useDarkColors2
            s).widget.m_automaticEntrypoints.forPostgame = none) := by
  have hR := run_roleInv env ops _
    (fresh_roleInv type tournamentMode contentEnabled useDarkColors settings)
  have hT : tournamentMode = true →
      (World.run env (World.fresh type tournamentMode contentEnabled useDarkColors settings)
        ops).widget.m_userAutoReload = false := by
    intro hm
    subst hm
    exact (run_tournamentInv env ops _
      (fresh_tournamentInv type contentEnabled useDarkColors settings)).2.2.2.1
  rw [← hs] at hR hT
  clear hs
  obtain ⟨r1, r2, r3⟩ := hR
  obtain ⟨_, _, _, _, _, k6, k7, k8⟩ := saveConfig_store s
  rw [r1] at k6 k7 k8
  have hp := savedThenLoaded_persisted env2 contentEnabled2 useDarkColors2 s
  generalize savedThenLoaded env2 contentEnabled2 useDarkColors2 s = L at *
  have p1 : L.widget.m_filename = _ := congrArg Persisted.m_filename hp
  have p2 : L.widget.m_entryPoint = _ := congrArg Persisted.m_entryPoint hp
  have p3 : L.widget.m_userAutoReload = _ := congrArg Persisted.m_userAutoReload hp
  have p4 : L.widget.m_btnEnableDebug.checked = _ := congrArg Persisted.enableDebugChecked hp
  have p5 : L.widget.m_performanceAction.checked = _ := congrArg Persisted.performanceChecked hp
  have p6 : L.widget.m_automaticEntrypoints = _ := congrArg Persisted.m_automaticEntrypoints hp
  dsimp only at p1 p2 p3 p4 p5 p6
  refine ⟨?_, ?_, p2, ?_, ?_, p5, p6, ?_, ?_, ?_⟩
  · rw [p1]
    by_cases he : QString.eq s.widget.m_filename (some "") = true
    · rw [if_pos he, QString_eq_symm]
      exact QString_eq_trans he (by decide)
    · rw [if_neg he]
      exact QString_eq_refl _
  · intro hne
    rw [p1]
    rcases hf : s.widget.m_filename with _ | f
    · simp
    · have : f ≠ "" := by
        intro h0
        rw [hf, h0] at hne
        exact hne rfl
      simp [QString.eq, QString.toStdString, this]
  · rw [p3]
    cases hm : s.widget.m_isTournamentMode
    · simp
    · rw [r2] at hm
      simp [hT hm]
  · rw [p4]
    by_cases ht : s.widget.m_type = .AUTOREF
    · rw [if_pos ht]
      rw [r1] at ht
      exact (r3 ht).1.symm
    · rw [if_neg ht]
  · intro hnone
    refine ⟨?_, ?_⟩
    · rw [k6, hnone]; rfl
    · rw [p6]; exact hnone
  · intro hnone
    refine ⟨?_, ?_⟩
    · rw [k7, hnone]; rfl
    · rw [p6]; exact hnone
  · intro hnone
    refine ⟨?_, ?_⟩
    · rw [k8, hnone]; rfl
    · rw [p6]; exact hnone

/-- C3 at a concrete input: a yellow controller outside tournament mode with a script, an
entry point, auto-reload and debugging switched on and an automatic entry point for the
game, saved and loaded again. -/
theorem C3_saveConfig_then_load_witness :
    (savedThenLoaded noFiles false true roundtripState).widget.m_entryPoint = some "main"
    ∧ (savedThenLoaded noFiles false true roundtripState).widget.m_userAutoReload = true
    ∧ (savedThenLoaded noFiles false true roundtripState).widget.m_btnEnableDebug.checked = true
    ∧ (savedThenLoaded noFiles false true roundtripState).widget.m_automaticEntrypoints
        = { forGame := some "game" }
    ∧ (TeamWidget.saveConfig roundtripState).settings
        [TeamWidget.teamTypeName .YELLOW, "AutomaticEntrypoints", "break"] = none :=
  have h := C3_saveConfig_then_load noFiles .YELLOW false true false emptySettings
    roundtripOps roundtripState rfl noFiles false true
  ⟨h.2.2.1.trans (by decide), h.2.2.2.1.trans (by decide), h.2.2.2.2.1.trans (by decide),
    h.2.2.2.2.2.2.1.trans (by decide), (h.2.2.2.2.2.2.2.2.1 (by decide)).1⟩

/-- C4: for a controller initialised with tournamentMode = true, after `init` and after
every later operation the auto-reload action is checked and disabled, so that the user
cannot toggle it, and every `auto_reload` command the controller has emitted carries the
value true. -/
theorem C4_tournament_auto_reload (env : Env) (type : StrategyType)
    (contentEnabled useDarkColors : Bool) (settings : SettingsStore) (ops : List Op) (s : World)
    (hs : s = World.run env (World.fresh type true contentEnabled useDarkColors settings) ops) :
    s.widget.m_reloadAction.checked = true
    ∧ s.widget.m_reloadAction.enabled = false
    ∧ TeamWidget.userToggleReloadAction s = s
    ∧ (∀ c ∈ s.sent, ∀ (m : SubMessage) (strategy : CommandStrategy),
        c.strategyAt m = some strategy → ∀ v : Bool, strategy.auto_reload = some v → v = true) := by
  have h := run_tournamentInv env ops _
    (fresh_tournamentInv type contentEnabled useDarkColors settings)
  rw [← hs] at h
  obtain ⟨_, h2, h3, _, h5⟩ := h
  refine ⟨h2, h3, ?_, h5⟩
  simp [TeamWidget.userToggleReloadAction, h3]

/-- C4 at a concrete input: a blue tournament controller is enabled, asked to stop forcing
auto-reload, loaded and told to send its auto-reload state; the three `auto_reload`
commands it has emitted carry true. -/
theorem C4_tournament_auto_reload_witness :
    tournamentState.widget.m_reloadAction.checked = true
    ∧ tournamentState.widget.m_reloadAction.enabled = false
    ∧ tournamentState.sent
        = [Command.only .strategy_blue { auto_reload := some true },
           Command.only .strategy_blue { auto_reload := some true },
           Command.only .strategy_blue { auto_reload := some true }] :=
  have h := C4_tournament_auto_reload noFiles .BLUE false false emptySettings
    tournamentOps tournamentState rfl
  ⟨h.1, h.2.1, by decide⟩


theorem indexOfSlash_lt (l : List Char) (idx : Nat) (h : indexOfSlash l = some idx) :
    idx < l.length := by
  induction l generalizing idx with
  | nil => simp [indexOfSlash] at h
  | cons c cs ih =>
    unfold indexOfSlash at h
    split at h
    · simp at h; subst h; simp
    · rcases hcs : indexOfSlash cs with _ | j
      · simp [hcs] at h
      · simp [hcs] at h
        subst h
        have := ih j hcs
        simp
        omega

theorem joinPath_length (l r : String) :
    (joinPath l r).length = l.length + (if l.length = 0 then 0 else 1) + r.length := by
  have hs : "/".length = 1 := by decide
  unfold joinPath
  split <;> simp [String.length_append, hs]

theorem qLeft_length (s : String) (n : Nat) : (qLeft s n).length = min n s.length := by
  show (s.data.take n).length = min n s.data.length
  exact List.length_take n s.data

theorem qRight_length (s : String) (n : Nat) : (qRight s n).length = min n s.length := by
  show (s.data.drop (s.data.length - n)).length = min n s.data.length
  rw [List.length_drop]
  omega

theorem shortenSegment_length_le (menu : QMenu) (nameLeft : String) :
    (shortenSegment menu nameLeft).length ≤ nameLeft.length := by
  unfold shortenSegment
  rw [qLeft_length]
  exact Nat.min_le_right _ _

theorem shorten_round_length_le (menu : QMenu) (left right : String) (idx : Nat)
    (h : indexOfSlash right.data = some idx) :
    (joinPath (joinPath left (shortenSegment menu (qLeft right idx)))
        (qRight right (right.length - idx - 1))).length
      ≤ (joinPath left right).length := by
  have hlt : idx < right.length := indexOfSlash_lt _ _ h
  have hs := shortenSegment_length_le menu (qLeft right idx)
  rw [qLeft_length] at hs
  rw [joinPath_length, joinPath_length, joinPath_length, qRight_length]
  have h1 : min idx right.length = idx := Nat.min_eq_left (Nat.le_of_lt hlt)
  rw [h1] at hs
  have h2 : min (right.length - idx - 1) right.length = right.length - idx - 1 := by
    apply Nat.min_eq_left; omega
  rw [h2]
  split <;> split <;> omega

theorem shortenLoop_length_le (targetLength : Int) (fuel : Nat) (menu : QMenu)
    (left right result : String)
    (h : shortenLoop targetLength fuel menu left right = some result) :
    result.length ≤ (joinPath left right).length := by
  induction fuel generalizing menu left right with
  | zero => simp [shortenLoop] at h
  | succ fuel ih =>
    unfold shortenLoop at h
    split at h
    · split at h
      · simp at h; rw [← h]
      · rename_i idx hidx
        dsimp only at h
        split at h
        · simp at h
        · exact Nat.le_trans (ih _ _ _ h) (shorten_round_length_le menu left right idx hidx)
    · simp at h; rw [← h]

theorem shortenLoop_mono (N1 N2 : Int) (hN : N1 ≤ N2) (fuel : Nat) (menu : QMenu)
    (left right r1 : String) (h : shortenLoop N1 fuel menu left right = some r1) :
    ∃ r2, shortenLoop N2 fuel menu left right = some r2 ∧ r1.length ≤ r2.length := by
  induction fuel generalizing menu left right with
  | zero => simp [shortenLoop] at h
  | succ fuel ih =>
    by_cases c2 : (left.length : Int) + 1 + (right.length : Int) > N2
    · have c1 : (left.length : Int) + 1 + (right.length : Int) > N1 := by omega
      unfold shortenLoop at h ⊢
      rw [if_pos c1] at h
      rw [if_pos c2]
      split at h
      · exact ⟨_, rfl, by simp at h; rw [h]⟩
      · rename_i idx hidx
        dsimp only at h ⊢
        split at h
        · simp at h
        · exact ih _ _ _ h
    · refine ⟨joinPath left right, ?_, shortenLoop_length_le N1 _ menu left right r1 h⟩
      unfold shortenLoop
      rw [if_neg c2]

theorem shortenLoop_of_pathPresent (N : Int) (fuel : Nat) (menu : QMenu) (left right : String)
    (h : pathPresentLoop fuel menu right = true) :
    ∃ r, shortenLoop N fuel menu left right = some r := by
  induction fuel generalizing menu left right with
  | zero => simp [pathPresentLoop] at h
  | succ fuel ih =>
    unfold pathPresentLoop at h
    unfold shortenLoop
    split
    · split at h
      · exact ⟨_, rfl⟩
      · rename_i idx hidx
        dsimp only
        split at h
        · simp at h
        · exact ih _ _ _ h
    · exact ⟨_, rfl⟩

theorem shortenLoop_fuel (N : Int) (fuel1 fuel2 : Nat) (menu : QMenu) (left right : String)
    (h1 : right.length < fuel1) (h2 : right.length < fuel2) :
    shortenLoop N fuel1 menu left right = shortenLoop N fuel2 menu left right := by
  induction fuel1 generalizing fuel2 menu left right with
  | zero => omega
  | succ fuel1 ih =>
    cases fuel2 with
    | zero => omega
    | succ fuel2 =>
      unfold shortenLoop
      split
      · split
        · rfl
        · rename_i idx hidx
          dsimp only
          split
          · rfl
          · have hlt : idx < right.length := indexOfSlash_lt _ _ hidx
            apply ih
            · rw [qRight_length]; omega
            · rw [qRight_length]; omega
      · rfl

theorem shortenEntrypointName_mono (menu : QMenu) (name : String) (N1 N2 : Int) (hN : N1 ≤ N2)
    (r1 : String) (h : TeamWidget.shortenEntrypointName menu name N1 = some r1) :
    ∃ r2, TeamWidget.shortenEntrypointName menu name N2 = some r2 ∧ r1.length ≤ r2.length :=
  shortenLoop_mono N1 N2 hN _ menu "" name r1 h

/-- C7 as stated fails: there are no menu, name with its path present in the menu, and
target lengths N1 < N2 for which the result for N1 is strictly longer than the result
for N2. -/
theorem C7_shorten_not_monotone_counterexample :
    ¬ ∃ (menu : QMenu) (name : String) (N1 N2 : Int) (r1 r2 : String),
      pathPresent menu name = true ∧ N1 < N2
      ∧ TeamWidget.shortenEntrypointName menu name N1 = some r1
      ∧ TeamWidget.shortenEntrypointName menu name N2 = some r2
      ∧ r2.length < r1.length := by
  rintro ⟨menu, name, N1, N2, r1, r2, _, hN, h1, h2, hlt⟩
  obtain ⟨r, hr, hle⟩ := shortenEntrypointName_mono menu name N1 N2 (le_of_lt hN) r1 h1
  rw [h2] at hr
  cases hr
  omega

/-- C7 amended: the length of `shortenEntrypointName(tree, name, N)` is monotone in the
target length N: for a name whose path is present in the menu and target lengths
N1 ≤ N2, both calls return and the result for N1 is not longer than the result for N2. -/
theorem C7_shorten_length_monotone (menu : QMenu) (name : String) (N1 N2 : Int)
    (hPresent : pathPresent menu name = true) (hN : N1 ≤ N2) :
    ∃ r1 r2, TeamWidget.shortenEntrypointName menu name N1 = some r1
      ∧ TeamWidget.shortenEntrypointName menu name N2 = some r2
      ∧ r1.length ≤ r2.length := by
  obtain ⟨r1, h1⟩ := shortenLoop_of_pathPresent N1 (name.length + 1) menu "" name hPresent
  obtain ⟨r2, h2, hle⟩ := shortenEntrypointName_mono menu name N1 N2 hN r1 h1
  exact ⟨r1, r2, h1, h2, hle⟩

/-- C7 amended, at the name "a/ab/abc" of the specification with targets 3 and 7. -/
theorem C7_shorten_length_monotone_witness :
    pathPresent exampleMenu "a/ab/abc" = true ∧ (3 : Int) ≤ 7
    ∧ ∃ r1 r2, TeamWidget.shortenEntrypointName exampleMenu "a/ab/abc" 3 = some r1
      ∧ TeamWidget.shortenEntrypointName exampleMenu "a/ab/abc" 7 = some r2
      ∧ r1.length ≤ r2.length :=
  ⟨by decide, by decide,
    C7_shorten_length_monotone exampleMenu "a/ab/abc" 3 7 (by decide) (by decide)⟩

/-- C6, the code at the failing input: in a menu with the sibling groups "a" and "ab", both
segments are shortened to "a", and the entry points "a/x" and "ab/x" are both shortened
to "a/x". -/
theorem C6_shortened_siblings_collide :
    shortenSegment collidingMenu "a" = "a"
    ∧ shortenSegment collidingMenu "ab" = "a"
    ∧ TeamWidget.shortenEntrypointName collidingMenu "a/x" 0 = some "a/x"
    ∧ TeamWidget.shortenEntrypointName collidingMenu "ab/x" 0 = some "a/x"
    ∧ menuOfNames ["a/x", "ab/x"] = some collidingMenu := by
  refine ⟨by decide, by decide, by decide, by decide, rfl⟩


theorem divergenceIndex_ge (a b : List Char) (k i : Nat) (h : divergenceIndex a b k = some i) :
    k ≤ i := by
  induction a generalizing b k with
  | nil => simp [divergenceIndex] at h
  | cons c cs ih =>
    cases b with
    | nil => simp [divergenceIndex] at h; omega
    | cons d ds =>
      unfold divergenceIndex at h
      split at h
      · simp at h; omega
      · have := ih ds (k + 1) h
        omega

theorem divergenceIndex_none (a b : List Char) (k : Nat) (h : divergenceIndex a b k = none) :
    a <+: b := by
  induction a generalizing b k with
  | nil => exact List.nil_prefix
  | cons c cs ih =>
    cases b with
    | nil => simp [divergenceIndex] at h
    | cons d ds =>
      unfold divergenceIndex at h
      split at h
      · simp at h
      · rename_i hcd
        have hcd2 : c = d := by simpa using hcd
        subst hcd2
        exact (List.prefix_cons_inj c).mpr (ih ds (k + 1) h)

theorem take_ne_of_divergence (a b : List Char) (k i j m n : Nat)
    (hab : divergenceIndex a b k = some i) (hba : divergenceIndex b a k = some j)
    (hm : j ≤ k + m) (hn : i ≤ k + n) : a.take (m + 1) ≠ b.take (n + 1) := by
  induction a generalizing b k m n with
  | nil => simp [divergenceIndex] at hab
  | cons c cs ih =>
    cases b with
    | nil => simp [divergenceIndex] at hba
    | cons d ds =>
      unfold divergenceIndex at hab hba
      by_cases hcd : c = d
      · subst hcd
        simp only [bne_self_eq_false, Bool.false_eq_true, if_false] at hab hba
        have h1 := divergenceIndex_ge _ _ _ _ hab
        have h2 := divergenceIndex_ge _ _ _ _ hba
        cases m with
        | zero => omega
        | succ m =>
          cases n with
          | zero => omega
          | succ n =>
            intro heq
            simp only [List.take_succ_cons, List.cons.injEq, true_and] at heq
            exact ih ds (k + 1) m n hab hba (by omega) (by omega) heq
      · intro heq
        simp only [List.take_succ_cons, List.cons.injEq] at heq
        exact hcd heq.1

theorem scanActions_mono (x : String) (menu : QMenu) (acc : Nat) (next : Option QMenu) :
    acc ≤ (scanActions x menu (acc, next)).1 := by
  induction menu generalizing acc next with
  | nil => simp [scanActions]
  | cons e rest ih =>
    unfold scanActions
    split
    · exact ih _ _
    · split
      · exact Nat.le_trans (Nat.le_max_left _ _) (ih _ _)
      · exact ih _ _

theorem scanActions_ge (x : String) (menu : QMenu) (acc : Nat) (next : Option QMenu)
    (e : MenuEntry) (he : e ∈ menu) (hne : e.text ≠ x) (i : Nat)
    (hi : divergenceIndex e.text.data x.data 0 = some i) :
    i ≤ (scanActions x menu (acc, next)).1 := by
  induction menu generalizing acc next with
  | nil => simp at he
  | cons f rest ih =>
    rcases List.mem_cons.mp he with hef | hin
    · subst hef
      unfold scanActions
      rw [if_neg hne]
      simp only [hi]
      exact Nat.le_trans (Nat.le_max_right _ _) (scanActions_mono _ _ _ _)
    · unfold scanActions
      split
      · exact ih _ _ hin
      · split
        · exact ih _ _ hin
        · exact ih _ _ hin

theorem shortenSegment_ne_of_not_prefix (menu : QMenu) (ex ey : MenuEntry)
    (hx : ex ∈ menu) (hy : ey ∈ menu)
    (hxy : ¬ ex.text.data <+: ey.text.data) (hyx : ¬ ey.text.data <+: ex.text.data) :
    shortenSegment menu ex.text ≠ shortenSegment menu ey.text := by
  have hne : ey.text ≠ ex.text := by
    intro h
    rw [h] at hyx
    exact hyx (List.prefix_refl _)
  rcases hi : divergenceIndex ey.text.data ex.text.data 0 with _ | i
  · exact absurd (divergenceIndex_none _ _ _ hi) hyx
  rcases hj : divergenceIndex ex.text.data ey.text.data 0 with _ | j
  · exact absurd (divergenceIndex_none _ _ _ hj) hxy
  have h1 := scanActions_ge ex.text menu 0 none ey hy hne i hi
  have h2 := scanActions_ge ey.text menu 0 none ex hx (Ne.symm hne) j hj
  intro heq
  unfold shortenSegment qLeft at heq
  have heq2 := congrArg String.data heq
  exact take_ne_of_divergence _ _ 0 j i _ _ hj hi (by omega) (by omega) heq2

theorem pathPresentLoop_fuel (fuel1 fuel2 : Nat) (menu : QMenu) (right : String)
    (h1 : right.length < fuel1) (h2 : right.length < fuel2) :
    pathPresentLoop fuel1 menu right = pathPresentLoop fuel2 menu right := by
  induction fuel1 generalizing fuel2 menu right with
  | zero => omega
  | succ fuel1 ih =>
    cases fuel2 with
    | zero => omega
    | succ fuel2 =>
      unfold pathPresentLoop
      split
      · rfl
      · rename_i idx hidx
        split
        · rfl
        · have hlt : idx < right.length := indexOfSlash_lt _ _ hidx
          apply ih
          · rw [qRight_length]; omega
          · rw [qRight_length]; omega

theorem indexOfSlash_append (g rest : List Char) (hg : '/' ∉ g) :
    indexOfSlash (g ++ '/' :: rest) = some g.length := by
  induction g with
  | nil => simp [indexOfSlash]
  | cons c cs ih =>
    have hc : c ≠ '/' := fun h => hg (by simp [h])
    have hcs : '/' ∉ cs := fun h => hg (List.mem_cons_of_mem _ h)
    simp [indexOfSlash, hc, ih hcs]

theorem indexOfSlash_none (l : List Char) (h : '/' ∉ l) : indexOfSlash l = none := by
  induction l with
  | nil => rfl
  | cons c cs ih =>
    have hc : c ≠ '/' := fun h2 => h (by simp [h2])
    have hcs : '/' ∉ cs := fun h2 => h (List.mem_cons_of_mem _ h2)
    simp [indexOfSlash, hc, ih hcs]

theorem groupPath_data (g rest : String) :
    (g ++ "/" ++ rest).data = g.data ++ '/' :: rest.data := by
  simp [String.data_append]

theorem groupPath_left (g rest : String) :
    qLeft (g ++ "/" ++ rest) g.length = g := by
  unfold qLeft
  rw [groupPath_data]
  show String.mk (List.take g.data.length (g.data ++ '/' :: rest.data)) = g
  rw [List.take_left]

theorem groupPath_right (g rest : String) :
    qRight (g ++ "/" ++ rest) ((g ++ "/" ++ rest).length - g.length - 1) = rest := by
  unfold qRight
  have hlen : (g ++ "/" ++ rest).length = g.data.length + 1 + rest.data.length := by
    show (g ++ "/" ++ rest).data.length = _
    rw [groupPath_data]
    simp
    omega
  have hg : g.length = g.data.length := rfl
  rw [hlen, hg, groupPath_data]
  have : g.data.length + 1 + rest.data.length - (g.data.length + 1 + rest.data.length - g.data.length - 1)
      = g.data.length + 1 := by omega
  rw [this, List.drop_append]
  rfl

theorem addEntryPointLoop_leaf (fuel : Nat) (menu : QMenu) (rest : String) (entryPoint : QString)
    (hr : '/' ∉ rest.data) :
    addEntryPointLoop (fuel + 1) menu rest entryPoint = some (menu ++ [.plain rest entryPoint]) := by
  rw [addEntryPointLoop]
  simp only [indexOfSlash_none _ hr]

theorem addEntryPointLoop_group (fuel : Nat) (menu : QMenu) (g rest : String)
    (entryPoint : QString) (hg : '/' ∉ g.data) :
    addEntryPointLoop (fuel + 1) menu (g ++ "/" ++ rest) entryPoint =
      match menu.getLast? with
      | some action =>
          if action.text = g then
            match action.menu with
            | none => none
            | some subMenu =>
                (addEntryPointLoop fuel subMenu rest entryPoint).map
                  (fun m => menu.dropLast ++ [.submenu g m])
          else
            (addEntryPointLoop fuel [] rest entryPoint).map (fun m => menu ++ [.submenu g m])
      | none =>
          (addEntryPointLoop fuel [] rest entryPoint).map (fun m => menu ++ [.submenu g m]) := by
  have hidx : indexOfSlash (g ++ "/" ++ rest).data = some g.length := by
    rw [groupPath_data]
    exact indexOfSlash_append _ _ hg
  rw [addEntryPointLoop]
  simp only [hidx, groupPath_left, groupPath_right]

theorem groupPath_length (g rest : String) :
    (g ++ "/" ++ rest).length = (g.length + rest.length) + 1 := by
  show (g ++ "/" ++ rest).data.length = g.data.length + rest.data.length + 1
  rw [groupPath_data]
  simp
  omega

theorem addEntryPoint_appends_group (menu : QMenu) (last : MenuEntry) (g rest : String)
    (entryPoint : QString) (hg : '/' ∉ g.data) (hr : '/' ∉ rest.data) (hlast : last.text ≠ g) :
    TeamWidget.addEntryPoint (menu ++ [last]) (g ++ "/" ++ rest) entryPoint
      = some (menu ++ [last] ++ [.submenu g [.plain rest entryPoint]]) := by
  unfold TeamWidget.addEntryPoint
  rw [addEntryPointLoop_group _ _ _ _ _ hg, groupPath_length, addEntryPointLoop_leaf _ _ _ _ hr]
  simp [hlast]

theorem addEntryPoint_reuses_last_group (menu sub : QMenu) (g rest : String)
    (entryPoint : QString) (hg : '/' ∉ g.data) (hr : '/' ∉ rest.data) :
    TeamWidget.addEntryPoint (menu ++ [.submenu g sub]) (g ++ "/" ++ rest) entryPoint
      = some (menu ++ [.submenu g (sub ++ [.plain rest entryPoint])]) := by
  unfold TeamWidget.addEntryPoint
  rw [addEntryPointLoop_group _ _ _ _ _ hg, groupPath_length]
  simp [MenuEntry.text, MenuEntry.menu, addEntryPointLoop_leaf _ _ _ _ hr]

/-- C11, the code at the failing input: with the groups "a" and "b" at the top level,
`addEntryPoint` for "a/z" compares "a" with the last action "b" only and adds a second
group "a"; the menu built from "a/x", "b/y", "a/z" has two groups named "a" at its top
level, and in the menu built from "a/p/x", "b/y", "a/q/z" the path "a/p/x" is no longer
found by `shortenEntrypointName`, whose assertion fails. -/
theorem C11_addEntryPoint_duplicate_group :
    groupNames twoGroupMenu = ["a", "b"]
    ∧ menuOfNames ["a/x", "b/y"] = some twoGroupMenu
    ∧ TeamWidget.addEntryPoint twoGroupMenu "a/z" (some "a/z")
        = some (twoGroupMenu ++ [.submenu "a" [.plain "z" (some "a/z")]])
    ∧ (menuOfNames ["a/x", "b/y", "a/z"]).map groupNames = some ["a", "b", "a"]
    ∧ ((menuOfNames ["a/p/x", "b/y", "a/q/z"]).map groupNames = some ["a", "b", "a"]
      ∧ (menuOfNames ["a/p/x", "b/y", "a/q/z"]).bind
          (fun menu => TeamWidget.shortenEntrypointName menu "a/p/x" 0) = none
      ∧ (menuOfNames ["a/p/x", "b/y", "a/q/z"]).map (fun menu => pathPresent menu "a/p/x")
          = some false) := by
  refine ⟨by decide, rfl, rfl, by decide, by decide, by decide, by decide⟩

theorem forceThenRelease_state (s : World) (hMode : s.widget.m_isTournamentMode = false)
    (hEnabled : s.widget.m_reloadAction.enabled = true) :
    (forceThenRelease s).widget.m_reloadAction.enabled = false
    ∧ (forceThenRelease s).widget.m_reloadAction.checked = true
    ∧ (forceThenRelease s).widget.m_userAutoReload = s.widget.m_userAutoReload := by
  unfold forceThenRelease
  cases hc : s.widget.m_reloadAction.checked <;>
    simp [TeamWidget.forceAutoReload, TeamWidget.reloadAction_setChecked,
      TeamWidget.sendAutoReload, World.emit, hMode, hEnabled, hc]

/-- C12, the code at the failing input: on a blue controller outside tournament mode whose
auto-reload action is enabled and unchecked, as is the stored user preference,
`forceAutoReload(true)` followed by `forceAutoReload(false)` leaves the action disabled
and checked; only the stored preference is what it was. -/
theorem C12_forceAutoReload_not_restored :
    ((World.fresh .BLUE false true false emptySettings).widget.m_isTournamentMode = false
      ∧ (World.fresh .BLUE false true false emptySettings).widget.m_reloadAction.enabled = true
      ∧ (World.fresh .BLUE false true false emptySettings).widget.m_reloadAction.checked = false
      ∧ (World.fresh .BLUE false true false emptySettings).widget.m_userAutoReload = false)
    ∧ (forceThenRelease
        (World.fresh .BLUE false true false emptySettings)).widget.m_reloadAction.enabled = false
    ∧ (forceThenRelease
        (World.fresh .BLUE false true false emptySettings)).widget.m_reloadAction.checked = true
    ∧ (forceThenRelease
        (World.fresh .BLUE false true false emptySettings)).widget.m_userAutoReload = false
    ∧ (forceThenRelease (World.fresh .BLUE false true false emptySettings)).sent
        = [Command.only .strategy_blue { auto_reload := some true },
           Command.only .strategy_blue { auto_reload := some true }] := by
  refine ⟨⟨by decide, by decide, by decide, by decide⟩, by decide, by decide, by decide,
    by decide⟩
